import Mathlib

/-
  Verification of the spendy-pants chat-bot backend (src/main.py) against its
  natural-language specification.

  The embedding models Python/Firestore semantics shallowly:
  * Firestore documents for receipts are dynamic JSON-like dictionaries
    (`Dict`), since edits replace them wholesale with user-supplied JSON.
  * User profiles and groups have a fixed field shape in the source, so they
    are embedded as Lean structures with optional fields (absent = the key is
    missing from the document, or stored as Firestore null, which the Python
    client reads back identically through dict.get).
  * firestore.SERVER_TIMESTAMP is the sentinel `TS.server`; it is resolved to
    the write-time value when a document is stored (the store is external and
    assumed available; store outages are out of scope per spec section 1).
  * Python machine floats are modelled as rationals; number formatting
    "%.2f" is modelled as rounding to the nearest hundredth (the half-even
    tie behaviour of binary floats is not observable in any claim).
-/

namespace Spendy

/-- Server timestamps: either the unresolved SERVER_TIMESTAMP sentinel as it
appears in an in-memory Python dict, or a concrete resolved time. -/
inductive TS where
  | server
  | at (t : Nat)
deriving DecidableEq, Repr

/-- Dynamic JSON-like values, as produced by json.loads and stored in
Firestore receipt documents.  `jts` is the SERVER_TIMESTAMP sentinel and
`jtime` a resolved server timestamp. -/
inductive JValue where
  | jnull
  | jbool (b : Bool)
  | jnum (q : ℚ)
  | jstr (s : String)
  | jarr (xs : List JValue)
  | jobj (fields : List (String × JValue))
  | jts
  | jtime (t : Nat)

open JValue

/-- Structural equality with a depth fuel, so that the function is
structurally recursive and evaluates by reduction; the fuel passed by
`JValue.beq` always suffices. -/
def JValue.beqFuel : Nat → JValue → JValue → Bool
  | 0, _, _ => false
  | fuel + 1, a, b =>
      match a, b with
      | jnull, jnull => true
      | jbool x, jbool y => x == y
      | jnum x, jnum y => x == y
      | jstr x, jstr y => x == y
      | jts, jts => true
      | jtime x, jtime y => x == y
      | jarr xs, jarr ys =>
          xs.length == ys.length &&
          (xs.zip ys).all (fun p => JValue.beqFuel fuel p.1 p.2)
      | jobj xs, jobj ys =>
          xs.length == ys.length &&
          (xs.zip ys).all (fun p =>
            p.1.1 == p.2.1 && JValue.beqFuel fuel p.1.2 p.2.2)
      | _, _ => false

/-- Python `==` on dynamic values (deep structural equality; distinct types
compare unequal, as Python does everywhere the source compares field
values).  The fuel of 64 exceeds the nesting depth of any document this
program constructs or compares (a receipt nests receipt → items → item
fields, depth three). -/
def JValue.beq (a b : JValue) : Bool := JValue.beqFuel 64 a b

/-- Python truthiness of a dynamic value. -/
def JValue.truthy : JValue → Bool
  | jnull => false
  | jbool b => b
  | jnum q => q != 0
  | jstr s => s != ""
  | jarr xs => !xs.isEmpty
  | jobj d => !d.isEmpty
  | jts => true
  | jtime _ => true

/-- A dynamic document: an insertion-ordered Python dict with string keys. -/
def Dict := List (String × JValue)

/-- First-match key lookup (`k in d` / presence of the key). -/
def dictGet (d : Dict) (k : String) : Option JValue :=
  match d with
  | [] => none
  | (k', v) :: rest => if k' == k then some v else dictGet rest k

/-- Python `d.get(k, default)`. -/
def pyGetD (d : Dict) (k : String) (dflt : JValue) : JValue :=
  (dictGet d k).getD dflt

/-- Python `d.get(k)` (missing key reads as None, exactly as a stored
Firestore null does through the Python client). -/
def pyGetN (d : Dict) (k : String) : JValue :=
  pyGetD d k jnull

/-- Python `d[k] = v`: replace in place if the key exists, else append. -/
def dictSet (d : Dict) (k : String) (v : JValue) : Dict :=
  match d with
  | [] => [(k, v)]
  | (k', v') :: rest =>
      if k' == k then (k, v) :: rest else (k', v') :: dictSet rest k v

/-- Python `d.pop(k, None)`: drop the key if present (dict keys are
unique, so dropping every binding of the key is Python's pop). -/
def dictPop (d : Dict) (k : String) : Dict :=
  d.filter (fun kv => kv.1 ≠ k)

/-- Resolution of SERVER_TIMESTAMP sentinels at write time.  The source only
ever places the sentinel at the top level of a payload, so resolution is a
top-level map. -/
def resolveJ (now : Nat) : JValue → JValue
  | jts => jtime now
  | v => v

/-- Resolve all top-level sentinel values of a payload at write time. -/
def resolveDict (now : Nat) (d : Dict) : Dict :=
  d.map (fun kv => (kv.1, resolveJ now kv.2))

/-- Association-list store keyed by document id: lookup. -/
def alGet {α : Type} (l : List (String × α)) (k : String) : Option α :=
  match l with
  | [] => none
  | (k', v) :: rest => if k' == k then some v else alGet rest k

/-- Association-list store: create or overwrite a document. -/
def alSet {α : Type} (l : List (String × α)) (k : String) (v : α) :
    List (String × α) :=
  match l with
  | [] => [(k, v)]
  | (k', v') :: rest =>
      if k' == k then (k, v) :: rest else (k', v') :: alSet rest k v

/-- Association-list store: delete a document (document ids are unique, so
removing every binding of the key is the store's delete). -/
def alDel {α : Type} (l : List (String × α)) (k : String) :
    List (String × α) :=
  l.filter (fun kv => kv.1 ≠ k)

/-- Python `s.strip()`. -/
def pyStrip (s : String) : String :=
  String.mk (((s.data.dropWhile Char.isWhitespace).reverse.dropWhile
    Char.isWhitespace).reverse)

/-- Python `s.lower()` (the identifiers handled are ASCII). -/
def pyLower (s : String) : String := String.mk (s.data.map Char.toLower)

/-- Split a character list at every character satisfying the predicate,
keeping empty pieces (the helper behind the split functions). -/
def splitPredList (p : Char → Bool) : List Char → List (List Char)
  | [] => [[]]
  | c :: cs =>
      let r := splitPredList p cs
      if p c then [] :: r
      else
        match r with
        | [] => [[c]]
        | h :: t => (c :: h) :: t

/-- Python `s.split()` with no arguments: split on whitespace runs,
dropping empty pieces. -/
def pySplitWs (s : String) : List String :=
  ((splitPredList Char.isWhitespace s.data).map String.mk).filter
    (fun p => p ≠ "")

/-- Python `s.split(sep)` for a one-character separator: keeps empty
pieces, always returns at least one piece. -/
def pySplitChar (s : String) (sep : Char) : List String :=
  (splitPredList (fun c => c == sep) s.data).map String.mk

/-- Python string `<=` (lexicographic by code point): the strict test. -/
def strLtList : List Char → List Char → Bool
  | [], [] => false
  | [], _ :: _ => true
  | _ :: _, [] => false
  | a :: as, b :: bs =>
      if a.toNat < b.toNat then true
      else if b.toNat < a.toNat then false
      else strLtList as bs

/-- Python string `<=`. -/
def pyStrLe (a b : String) : Bool := !(strLtList b.data a.data)

/-- Python `s.replace(old, new)` (all occurrences), by character-list
recursion with a length fuel. -/
def replaceAux (pat rep : List Char) : Nat → List Char → List Char
  | _, [] => []
  | 0, l => l
  | fuel + 1, c :: cs =>
      if pat.isPrefixOf (c :: cs) then
        rep ++ replaceAux pat rep fuel (List.drop (pat.length - 1) cs)
      else c :: replaceAux pat rep fuel cs

/-- Python `s.replace(old, new)`; an empty pattern is never passed. -/
def pyReplace (s pat rep : String) : String :=
  if pat.data.isEmpty then s
  else String.mk (replaceAux pat.data rep.data s.data.length s.data)

/-- Python `s[:n]`. -/
def pyTake (s : String) (n : Nat) : String := String.mk (s.data.take n)

/-- Helper for `pySplitMax1`: take the leading non-whitespace run. -/
def takeWord : List Char → List Char × List Char
  | [] => ([], [])
  | c :: cs =>
      if c.isWhitespace then ([], c :: cs)
      else
        let (w, r) := takeWord cs
        (c :: w, r)

/-- Python `s.split(maxsplit=1)`: split on the first whitespace run; the
remainder keeps its internal and trailing whitespace but not the separating
run. -/
def pySplitMax1 (s : String) : List String :=
  let cs := s.data.dropWhile Char.isWhitespace
  match cs with
  | [] => []
  | _ =>
      let (w, r) := takeWord cs
      let rest := r.dropWhile Char.isWhitespace
      if rest.isEmpty then [String.mk w] else [String.mk w, String.mk rest]

/-- Helper: split a character list at the first occurrence of `sep`. -/
def splitFirstAux (sep : Char) : List Char → Option (List Char × List Char)
  | [] => none
  | c :: cs =>
      if c == sep then some ([], cs)
      else
        match splitFirstAux sep cs with
        | some (a, b) => some (c :: a, b)
        | none => none

/-- Python `s.split(sep, 1)` for a one-character separator. -/
def pySplitFirst (s : String) (sep : Char) : List String :=
  match splitFirstAux sep s.data with
  | some (a, b) => [String.mk a, String.mk b]
  | none => [s]

/-- Python `sep in s` for a one-character separator. -/
def pyContainsChar (s : String) (c : Char) : Bool := s.data.contains c

/-- Python `s.startswith(p)`. -/
def pyStartsWith (s p : String) : Bool := p.data.isPrefixOf s.data

/-- Digits of a natural number, for zero padding. -/
def padNat (width : Nat) (n : Nat) : String :=
  let s := toString n
  if s.length < width then String.mk (List.replicate (width - s.length) '0') ++ s
  else s

/-- Formatting of a rational with two decimals, modelling Python "%.2f"
(rounding to the nearest hundredth). -/
def fmt2 (q : ℚ) : String :=
  let c : ℤ := round (q * 100)
  let sign := if c < 0 then "-" else ""
  let n := c.natAbs
  sign ++ toString (n / 100) ++ "." ++ padNat 2 (n % 100)

/-- Parse a digit run as a natural number; `none` if empty or non-digits. -/
def parseDigits : List Char → Option Nat
  | [] => none
  | cs =>
      if cs.all Char.isDigit then
        some (cs.foldl (fun acc c => acc * 10 + (c.toNat - 48)) 0)
      else none

/-- Python `int(s)`: optional surrounding whitespace, optional sign, digit
run (the only numeral forms fed to it by this program). -/
def pyInt (s : String) : Option ℤ :=
  let cs := (pyStrip s).data
  match cs with
  | '-' :: rest => (parseDigits rest).map (fun n => -(n : ℤ))
  | '+' :: rest => (parseDigits rest).map (fun n => (n : ℤ))
  | _ => (parseDigits cs).map (fun n => (n : ℤ))

/-- Python `float(s)` on plain decimal numerals (sign, integer part,
optional fraction); scientific notation is never fed to it here. -/
def pyFloat (s : String) : Option ℚ :=
  let t := pyStrip s
  let (neg, cs) :=
    match t.data with
    | '-' :: rest => (true, rest)
    | '+' :: rest => (false, rest)
    | cs => (false, cs)
  let core : Option ℚ :=
    match splitFirstAux '.' cs with
    | none => (parseDigits cs).map (fun n => (n : ℚ))
    | some (ip, fp) =>
        if ip.isEmpty && fp.isEmpty then none
        else
          let ipn : Option Nat := if ip.isEmpty then some 0 else parseDigits ip
          let fpq : Option ℚ :=
            if fp.isEmpty then some 0
            else (parseDigits fp).map (fun n => (n : ℚ) / (10 ^ fp.length : ℚ))
          match ipn, fpq with
          | some i, some f => some ((i : ℚ) + f)
          | _, _ => none
  core.map (fun q => if neg then -q else q)

/-- Python `round(x, 2)` (nearest hundredth; the half-even tie of floats is
not observable in any claim). -/
def pyRound2 (q : ℚ) : ℚ := (round (q * 100) : ℤ) / 100

/-- Calendar dates used for datetime.now(). -/
structure PyDate where
  year : Nat
  month : Nat
  day : Nat
deriving DecidableEq, Repr

/-- strftime("%Y-%m-%d"). -/
def fmtDate (d : PyDate) : String :=
  padNat 4 d.year ++ "-" ++ padNat 2 d.month ++ "-" ++ padNat 2 d.day

/-- Gregorian leap years, for datetime arithmetic. -/
def isLeap (y : Nat) : Bool :=
  (y % 4 == 0 && y % 100 != 0) || (y % 400 == 0)

/-- Number of days in a month, for datetime arithmetic. -/
def daysInMonth (y m : Nat) : Nat :=
  if m == 2 then (if isLeap y then 29 else 28)
  else if m == 4 || m == 6 || m == 9 || m == 11 then 30
  else 31

/-- datetime.strptime(s, "%Y-%m-%d") succeeding: dash-separated numeric
year, month and day fields denoting a real calendar date. -/
def isValidDate (s : String) : Bool :=
  match pySplitChar s '-' with
  | [ys, ms, ds] =>
      match parseDigits ys.data, parseDigits ms.data, parseDigits ds.data with
      | some y, some m, some d =>
          ys.length == 4 && ms.length ≤ 2 && ds.length ≤ 2 &&
          1 ≤ y && y ≤ 9999 && 1 ≤ m && m ≤ 12 && 1 ≤ d && d ≤ daysInMonth y m
      | _, _, _ => false
  | _ => false

/-- A user_profiles document.  Every field the source ever reads or writes;
`none` means the key is absent from the document (or stored as null, which
dict.get reads identically). -/
structure UserProfile where
  telegramUserId : Option String := none
  groupId : Option String := none
  status : Option String := none
  requestedAt : Option TS := none
  createdAt : Option TS := none
  updatedAt : Option TS := none
  statusUpdatedAt : Option TS := none
  groupJoinedAt : Option TS := none
  groupLeftAt : Option TS := none
deriving DecidableEq, Repr

/-- A groups document. -/
structure Group where
  groupName : String
  ownerId : String
  createdAt : TS
  memberUserIds : List String
deriving DecidableEq, Repr

/-- The Firestore database state: the three collections plus a counter used
to model auto-generated document ids. -/
structure FS where
  profiles : List (String × UserProfile) := []
  groups : List (String × Group) := []
  receipts : List (String × Dict) := []
  nextId : Nat := 0

/-- Process configuration: the single configured admin identity
(ADMIN_USER_ID, possibly unset). -/
structure Ctx where
  adminId : Option String := none

/-- Observable outbound channel traffic: bot.send_message and
bot.edit_message_text (keyboards and parse modes are presentation detail
carried alongside the text and are not separately tracked). -/
inductive Out where
  | send (chatId : String) (text : String)
  | editMsg (chatId : String) (messageId : Nat) (text : String)
deriving DecidableEq, Repr

/-- Python exceptions that can escape or be caught by the handler. -/
inductive PyExc where
  | valueError (msg : String)
  | telegramError (msg : String)
  | typeError (msg : String)
  | nameError (missing : String)
  | generic (msg : String)
deriving DecidableEq, Repr

/-- Resolve the SERVER_TIMESTAMP sentinels of a profile at write time. -/
def resolveProfile (now : Nat) (p : UserProfile) : UserProfile :=
  let r : Option TS → Option TS := fun t =>
    match t with
    | some TS.server => some (TS.at now)
    | t => t
  { p with
    requestedAt := r p.requestedAt
    createdAt := r p.createdAt
    updatedAt := r p.updatedAt
    statusUpdatedAt := r p.statusUpdatedAt
    groupJoinedAt := r p.groupJoinedAt
    groupLeftAt := r p.groupLeftAt }

/-- Fetches a user profile from Firestore; data dict or None if absent
(get_user_profile, main.py lines 218-225). -/
def get_user_profile (st : FS) (u : String) : Option UserProfile :=
  alGet st.profiles u

/-- Gets the groupId from a user profile, or None
(get_user_group_id, lines 276-279). -/
def get_user_group_id (st : FS) (u : String) : Option String :=
  match get_user_profile st u with
  | some p => p.groupId
  | none => none

/-- Fetches a group name (get_group_name, lines 282-286). -/
def get_group_name (st : FS) (gid : String) : Option String :=
  if gid == "" then none
  else
    match alGet st.groups gid with
    | some g => some g.groupName
    | none => none

/-- Checks whether the user is THE admin (is_user_admin, lines 296-298). -/
def is_user_admin (ctx : Ctx) (u : String) : Bool :=
  match ctx.adminId with
  | some a => a == u
  | none => false

/-- Checks whether the user is approved; the admin is always approved
(is_user_approved, lines 289-293). -/
def is_user_approved (ctx : Ctx) (st : FS) (u : String) : Bool :=
  if is_user_admin ctx u then true
  else
    match get_user_profile st u with
    | some p => p.status == some "approved"
    | none => false

/-- The one-time pending-approval notice (ensure_user_profile_exists,
lines 254-256). -/
def welcomeText (u : String) : String :=
  "Welcome! To use this service, your account needs approval.\n" ++
  "Your User ID is: `" ++ u ++ "`\n" ++
  "Please send this ID to the administrator."

/-- Ensures a user profile exists, creating a basic one if not; returns the
profile data dict as the Python function does (with unresolved
SERVER_TIMESTAMP sentinels on creation), the new store state and the
messages sent (ensure_user_profile_exists, lines 228-273).  Send failures
are swallowed in the source, so the notification always counts as sent. -/
def ensure_user_profile_exists (ctx : Ctx) (st : FS) (u : String)
    (chatFor : Option String) (now : Nat) :
    UserProfile × FS × List Out :=
  match get_user_profile st u with
  | none =>
      let isAdminSelf := is_user_admin ctx u
      let defaultStatus := if isAdminSelf then "approved" else "pending_approval"
      let newProfile : UserProfile :=
        { telegramUserId := some u
          groupId := none
          status := some defaultStatus
          requestedAt := some TS.server
          createdAt := some TS.server }
      let st' := { st with
        profiles := alSet st.profiles u (resolveProfile now newProfile) }
      let outs :=
        if defaultStatus == "pending_approval" then
          match chatFor with
          | some c => [Out.send c (welcomeText u)]
          | none => []
        else []
      (newProfile, st', outs)
  | some p =>
      if p.status == none then
        let stored := { p with
          status := some "pending_approval"
          updatedAt := some (TS.at now) }
        let st' := { st with profiles := alSet st.profiles u stored }
        -- the in-memory dict only gains the status key before being returned
        ({ p with status := some "pending_approval" }, st', [])
      else
        (p, st, [])

/-- Python `list(set(xs))` on user-id strings: duplicate removal.  CPython
leaves the order unspecified; it is modelled as first-occurrence order,
which no claim can distinguish from any other order of the same set. -/
def dedupFirst (l : List String) : List String :=
  l.foldl (fun acc x => if x ∈ acc then acc else acc ++ [x]) []

/-- The admin's per-member filter in group creation: keep ids whose profile
exists with status approved (create_group_in_firestore, lines 370-385;
cleaning and empty-drop included). -/
def admin_filter_initial_members (st : FS) (ids : List String) : List String :=
  (ids.map pyStrip).filter (fun mid =>
    mid ≠ "" &&
    (match get_user_profile st mid with
     | some p => p.status == some "approved"
     | none => false))

/-- Merge-write of groupId/groupJoinedAt into a member profile
(create_group_in_firestore, lines 415-417; merge=True keeps the other
fields). -/
def setProfileGroup (st : FS) (mid gid : String) (now : Nat) : FS :=
  let p0 := (alGet st.profiles mid).getD {}
  let p1 := { p0 with groupId := some gid, groupJoinedAt := some (TS.at now) }
  { st with profiles := alSet st.profiles mid p1 }

/-- Handles group creation (create_group_in_firestore, lines 346-436).
The source contains two definitions of this function; per Python semantics
the second overrides the first, so only the second (lines 346-436) is
embedded — the first (lines 301-343) is dead code.  Returns
(group_id or None, message) plus the new store state.  The store itself is
assumed available (its failure branches return generic error strings and
are external-outage handling outside this model). -/
def create_group_in_firestore (ctx : Ctx) (st : FS) (u : String)
    (groupName : String) (initialMemberIds : List String) (now : Nat) :
    Option String × String × FS :=
  if pyStrip groupName == "" then (none, "Group name cannot be empty.", st)
  else
    let isAdminActor := is_user_admin ctx u
    if !isAdminActor && !is_user_approved ctx st u then
      (none, "Your account is not approved to create groups.", st)
    else if !isAdminActor && (get_user_group_id st u).isSome then
      (none, "You are already in a group. To create a new one, please leave your current group first using the \x27Group Options\x27 menu.", st)
    else
      let membersToAdd : List String :=
        if isAdminActor then
          if initialMemberIds.isEmpty then []
          else admin_filter_initial_members st initialMemberIds
        else [u]
      let gid := "G" ++ toString st.nextId
      let groupData : Group :=
        { groupName := pyStrip groupName
          ownerId := u
          createdAt := TS.at now
          memberUserIds := dedupFirst membersToAdd }
      let st1 := { st with
        groups := alSet st.groups gid groupData
        nextId := st.nextId + 1 }
      let st2 := membersToAdd.foldl (fun s mid => setProfileGroup s mid gid now) st1
      let base := "Group \x27" ++ groupName ++ "\x27 created with ID: `" ++ gid ++ "`."
      let msg :=
        if isAdminActor then
          if !membersToAdd.isEmpty then
            base ++ "\nAdded members: " ++
              String.intercalate ", " (membersToAdd.map (fun m => "`" ++ m ++ "`")) ++ "."
          else base ++ "\nNo initial members were added."
        else base ++ "\nYou have been added as the first member."
      (some gid, msg, st2)

/-- Allows an approved non-admin user to leave their current group
(user_leave_group, lines 439-465).  firestore.ArrayRemove removes every
occurrence of the id; the group is deleted when its member list becomes
empty. -/
def user_leave_group (ctx : Ctx) (st : FS) (u : String) (now : Nat) :
    String × FS :=
  if !is_user_approved ctx st u || is_user_admin ctx u then
    ("This action is for regular approved users. Admins should use admin commands for group management.", st)
  else
    match get_user_group_id st u with
    | none => ("You are not currently in any group.", st)
    | some gid =>
        let groupDoc := alGet st.groups gid
        let groupName := (get_group_name st gid).getD "your current group"
        let p0 := (alGet st.profiles u).getD {}
        let p1 := { p0 with groupId := none, groupLeftAt := some (TS.at now) }
        let st1 := { st with profiles := alSet st.profiles u p1 }
        match groupDoc with
        | none => ("You have left \x27" ++ groupName ++ "\x27.", st1)
        | some g =>
            let g' := { g with
              memberUserIds := g.memberUserIds.filter (fun m => m ≠ u) }
            let st2 := { st1 with groups := alSet st1.groups gid g' }
            if g'.memberUserIds.isEmpty then
              ("You have left \x27" ++ groupName ++ "\x27. The group is now empty and has been deleted.",
               { st2 with groups := alDel st2.groups gid })
            else
              ("You have left \x27" ++ groupName ++ "\x27.", st2)

/-- Information about the user's current group, with lazy self-healing of a
dangling groupId (get_my_group_info, lines 468-487). -/
def get_my_group_info (st : FS) (u : String) : String × FS :=
  match get_user_group_id st u with
  | none => ("You are not in a group. Admin can add you or you can ask admin to create one for you.", st)
  | some gid =>
      match alGet st.groups gid with
      | none =>
          let p0 := (alGet st.profiles u).getD {}
          let st1 := { st with profiles := alSet st.profiles u { p0 with groupId := none } }
          ("Error: Your group data was inconsistent. You\x27ve been removed from the non-existent group.", st1)
      | some g =>
          let header :=
            "Group: \x27" ++ g.groupName ++ "\x27 (ID: `" ++ gid ++ "`)\n" ++
            "Owner ID: `" ++ g.ownerId ++ "` " ++
            (if g.ownerId == u then "(You)" else "") ++ "\n" ++
            "Members (" ++ toString g.memberUserIds.length ++ "):\n"
          let body := String.join (g.memberUserIds.map (fun m =>
            "  - `" ++ m ++ "` " ++ (if m == u then "(You)" else "") ++ "\n"))
          (header ++ body, st)

/-- Stable descending insertion by a natural-number key. -/
def insDescNat {α : Type} (key : α → Nat) (x : α) : List α → List α
  | [] => [x]
  | y :: ys => if key y < key x then x :: y :: ys else y :: insDescNat key x ys

/-- Stable descending sort by a natural-number key (order_by DESCENDING). -/
def sortDescNat {α : Type} (key : α → Nat) (l : List α) : List α :=
  l.foldr (insDescNat key) []

/-- Sort key for order_by('createdAt'): documents lacking the field are
excluded by Firestore before this applies, so the fallback is unreachable. -/
def createdAtKey (p : UserProfile) : Nat :=
  match p.createdAt with
  | some (TS.at t) => t
  | _ => 0

/-- Lists users, optionally filtered by status, newest first, limit 50
(admin_list_users, lines 491-506).  Firestore's order_by excludes documents
missing the sort field. -/
def admin_list_users (st : FS) (statusFilter : String) : String :=
  let filtered :=
    if statusFilter == "pending_approval" || statusFilter == "approved" ||
       statusFilter == "banned" then
      st.profiles.filter (fun kv => kv.2.status == some statusFilter)
    else st.profiles
  let docs := (sortDescNat (fun kv => createdAtKey kv.2)
      (filtered.filter (fun kv => kv.2.createdAt.isSome))).take 50
  let items := docs.map (fun kv =>
    "- ID: `" ++ kv.2.telegramUserId.getD "None" ++ "` (Status: " ++
    kv.2.status.getD "N/A" ++ ", Group: `" ++ kv.2.groupId.getD "None" ++ "`)")
  if items.isEmpty then
    "No users found with status \x27" ++ statusFilter ++ "\x27."
  else
    "Users (Status: " ++ statusFilter ++ "):\n" ++ String.intercalate "\n" items

/-- Sets a user's status and fires a best-effort notification to that user
(admin_set_user_status, lines 509-532).  Channel errors are swallowed, so
the notification always counts as sent. -/
def admin_set_user_status (st : FS) (uid newStatus : String) (now : Nat) :
    String × FS × List Out :=
  if newStatus ≠ "approved" && newStatus ≠ "banned" && newStatus ≠ "pending_approval" then
    ("Invalid status. Use \x27approved\x27, \x27banned\x27, or \x27pending_approval\x27.", st, [])
  else
    match alGet st.profiles uid with
    | none => ("User ID `" ++ uid ++ "` not found.", st, [])
    | some p =>
        let p1 := { p with status := some newStatus, statusUpdatedAt := some (TS.at now) }
        let st1 := { st with profiles := alSet st.profiles uid p1 }
        let outs :=
          if newStatus == "approved" then
            [Out.send uid "Your account has been approved! You can now use the bot. Send /menu or an image."]
          else if newStatus == "banned" then
            [Out.send uid "Your account access has been restricted by the administrator."]
          else []
        ("User `" ++ uid ++ "` status set to \x27" ++ newStatus ++ "\x27.", st1, outs)

/-- Removes a user from a group; clears the profile's groupId when it points
at that group; deletes the group if it became empty
(admin_remove_user_from_group, lines 535-560). -/
def admin_remove_user_from_group (st : FS) (uid gid : String) (now : Nat) :
    String × FS :=
  match alGet st.profiles uid with
  | none => ("User ID `" ++ uid ++ "` not found.", st)
  | some p =>
      match alGet st.groups gid with
      | none => ("Group ID `" ++ gid ++ "` not found.", st)
      | some g =>
          let groupName := g.groupName
          let g' := { g with memberUserIds := g.memberUserIds.filter (fun m => m ≠ uid) }
          let st1 := { st with groups := alSet st.groups gid g' }
          let st2 :=
            if p.groupId == some gid then
              let p1 := { p with groupId := none, groupLeftAt := some (TS.at now) }
              { st1 with profiles := alSet st1.profiles uid p1 }
            else st1
          if g'.memberUserIds.isEmpty then
            ("User `" ++ uid ++ "` removed from group \x27" ++ groupName ++
               "\x27. The group was empty and has been deleted.",
             { st2 with groups := alDel st2.groups gid })
          else
            ("User `" ++ uid ++ "` removed from group \x27" ++ groupName ++ "\x27.", st2)

/-- Deletes a group and clears groupId on every member whose profile still
points at it (admin_delete_group, lines 563-582). -/
def admin_delete_group (st : FS) (gid : String) (now : Nat) : String × FS :=
  match alGet st.groups gid with
  | none => ("Group ID `" ++ gid ++ "` not found.", st)
  | some g =>
      let st1 := g.memberUserIds.foldl (fun s mid =>
        match alGet s.profiles mid with
        | some p =>
            if p.groupId == some gid then
              let p1 := { p with groupId := none, groupLeftAt := some (TS.at now) }
              { s with profiles := alSet s.profiles mid p1 }
            else s
        | none => s) st
      ("Group \x27" ++ g.groupName ++ "\x27 (ID: `" ++ gid ++
         "`) and its members\x27 associations have been deleted.",
       { st1 with groups := alDel st1.groups gid })

/-- Modelled from the spec: the join operation behind the admin command
`/addusertogroup <user_id> <group_id>`.  The dispatcher (main.py line 1477)
calls a function admin_add_user_to_group that is defined nowhere in the
source, so the operation is modelled from spec sections 4.2 and 6: look up
the user and the group (descriptive message when either is missing), add
the user to the group's member set with an atomic array-add (array-union
semantics: no duplicate is inserted), and merge the groupId and a join
timestamp into the user's profile. -/
def admin_add_user_to_group (st : FS) (uid gid : String) (now : Nat) :
    String × FS :=
  match alGet st.profiles uid with
  | none => ("User ID `" ++ uid ++ "` not found.", st)
  | some p =>
      match alGet st.groups gid with
      | none => ("Group ID `" ++ gid ++ "` not found.", st)
      | some g =>
          let g' := { g with memberUserIds :=
            if uid ∈ g.memberUserIds then g.memberUserIds
            else g.memberUserIds ++ [uid] }
          let st1 := { st with
            groups := alSet st.groups gid g'
            profiles := alSet st.profiles uid
              { p with groupId := some gid, groupJoinedAt := some (TS.at now) } }
          ("User `" ++ uid ++ "` added to group \x27" ++ g.groupName ++ "\x27.", st1)

/-- Python `isinstance(x, (int, float))`: booleans are ints in Python, so
they pass this check too. -/
def pyIsNumber : JValue → Bool
  | JValue.jnum _ => true
  | JValue.jbool _ => true
  | _ => false

/-- Numeric value of a Python number (with bool-as-int coercion). -/
def pyToQ : JValue → ℚ
  | JValue.jnum q => q
  | JValue.jbool b => if b then 1 else 0
  | _ => 0

/-- Python `str(x)` for the value shapes that reach display positions
(receipts written by this system always carry strings here). -/
def pyStrOf : JValue → String
  | JValue.jstr s => s
  | JValue.jnull => "None"
  | JValue.jbool b => if b then "True" else "False"
  | JValue.jnum q => fmt2 q
  | _ => "?"

/-- Determines the receipts query field, value and label from the user's
group status (get_query_target, lines 586-593).  Python truthiness: a
missing or empty groupId means personal scope, and a missing or empty group
name falls back to "Unnamed Group". -/
def get_query_target (st : FS) (u : String) : String × String × String :=
  match get_user_group_id st u with
  | some gid =>
      if gid == "" then ("telegramUserId", u, "(personal)")
      else
        let nm :=
          match get_group_name st gid with
          | some n => if n == "" then "Unnamed Group" else n
          | none => "Unnamed Group"
        ("groupId", gid, "for group \x27" ++ nm ++ "\x27")
  | none => ("telegramUserId", u, "(personal)")

/-- The Firestore receipts query of _aggregate_spending (lines 599-608):
equality on the scope field plus optional closed date-range filters.
Range filters on 'date' with a string operand match string-typed dates
only; string order is lexicographic in both systems. -/
def receiptMatchesQuery (field value startD endD : String) (d : Dict) : Bool :=
  (match dictGet d field with
   | some v => v.beq (JValue.jstr value)
   | none => false)
  && (if startD ≠ "" then
        match dictGet d "date" with
        | some (JValue.jstr x) => pyStrLe startD x
        | _ => false
      else true)
  && (if endD ≠ "" then
        match dictGet d "date" with
        | some (JValue.jstr x) => pyStrLe x endD
        | _ => false
      else true)

/-- The receipt documents streamed by the query, in store order. -/
def queryReceipts (st : FS) (field value startD endD : String) : List Dict :=
  (st.receipts.filter (fun kv =>
    receiptMatchesQuery field value startD endD kv.2)).map (fun kv => kv.2)

/-- Python `d[k] = d.get(k, 0.0) + amt` on a spending dict: bump in place or
append. -/
def bumpAmount (l : List (String × ℚ)) (k : String) (amt : ℚ) :
    List (String × ℚ) :=
  match l with
  | [] => [(k, amt)]
  | (k', v) :: rest =>
      if k' == k then (k', v + amt) :: rest
      else (k', v) :: bumpAmount rest k amt

/-- Loop state of _aggregate_spending (lines 610-614). -/
structure AggAcc where
  total : ℚ := 0
  count : Nat := 0
  ccy : JValue := JValue.jstr ""
  catSp : List (String × ℚ) := []
  storeSp : List (String × ℚ) := []

/-- The per-item accumulation of by_category mode (lines 628-633); items
that are not objects are never produced by this system's writers and
contribute nothing. -/
def catStepItems (catSp : List (String × ℚ)) (items : List JValue) :
    List (String × ℚ) :=
  items.foldl (fun acc it =>
    match it with
    | JValue.jobj d =>
        let category := pyStrOf (pyGetD d "grocery_category" (JValue.jstr "Uncategorized"))
        let itemPrice := pyGetN d "item_price"
        if pyIsNumber itemPrice then bumpAmount acc category (pyToQ itemPrice)
        else acc
    | _ => acc) catSp

/-- One iteration of the _aggregate_spending document loop
(lines 617-636): receipts whose total_price fails the isinstance number
check are skipped; the currency label is taken from the first counted
receipt that has one. -/
def aggStep (mode : String) (acc : AggAcc) (d : Dict) : AggAcc :=
  let currentTotal := pyGetN d "total_price"
  if !pyIsNumber currentTotal then acc
  else
    let acc1 := { acc with
      total := acc.total + pyToQ currentTotal
      count := acc.count + 1 }
    let acc2 :=
      if acc1.ccy.truthy then acc1
      else { acc1 with ccy := pyGetD d "currency_code" (JValue.jstr "") }
    if mode == "by_category" then
      let items := match pyGetD d "items" (JValue.jarr []) with
        | JValue.jarr xs => xs
        | _ => []
      { acc2 with catSp := catStepItems acc2.catSp items }
    else if mode == "by_store" then
      let storeName := pyStrOf (pyGetD d "store_name" (JValue.jstr "Unknown Store"))
      { acc2 with storeSp := bumpAmount acc2.storeSp storeName (pyToQ currentTotal) }
    else acc2

/-- Stable descending insertion under a strict-order test. -/
def insDescLt {α : Type} (lt : α → α → Bool) (x : α) : List α → List α
  | [] => [x]
  | y :: ys => if lt y x then x :: y :: ys else y :: insDescLt lt x ys

/-- Stable descending sort under a strict-order test (Python
sorted(..., reverse=True) with a key). -/
def sortDescLt {α : Type} (lt : α → α → Bool) (l : List α) : List α :=
  l.foldr (insDescLt lt) []

/-- Rendering of a spending dict, descending by amount (lines 651-652 and
659-660). -/
def renderSpendingLines (sp : List (String × ℚ)) : String :=
  String.join ((sortDescLt (fun a b => decide (a.2 < b.2)) sp).map
    (fun kv => "- " ++ kv.1 ++ ": " ++ fmt2 kv.2 ++ "\n"))

/-- Generic date-bound spending aggregation (_aggregate_spending,
lines 596-665). -/
def _aggregate_spending (st : FS) (u : String) (startD endD : String)
    (mode : String) : String :=
  let (queryField, queryValue, contextLabel) := get_query_target st u
  let docs := queryReceipts st queryField queryValue startD endD
  let acc := docs.foldl (aggStep mode) {}
  if acc.count == 0 then
    let dateRangeMsg :=
      if startD ≠ "" && endD ≠ "" then "between " ++ startD ++ " and " ++ endD
      else "for the period"
    "No receipts found " ++ contextLabel ++ " " ++ dateRangeMsg ++ "."
  else
    let ccyDisplay := if acc.ccy.truthy then pyStrOf acc.ccy else ""
    if mode == "total_by_date" then
      "Total spent " ++ contextLabel ++ " (" ++ toString acc.count ++
        " receipts): " ++ fmt2 acc.total ++ " " ++ ccyDisplay
    else if mode == "by_category" then
      "Spending by category " ++ contextLabel ++ " (Total: " ++ fmt2 acc.total ++
        " " ++ ccyDisplay ++ "):\n" ++
        (if acc.catSp.isEmpty then "No categorized items found."
         else renderSpendingLines acc.catSp)
    else if mode == "by_store" then
      "Spending by store " ++ contextLabel ++ " (Total: " ++ fmt2 acc.total ++
        " " ++ ccyDisplay ++ "):\n" ++
        (if acc.storeSp.isEmpty then "No store data found."
         else renderSpendingLines acc.storeSp)
    else if mode == "avg_receipt" then
      "Average receipt value " ++ contextLabel ++ " (" ++ toString acc.count ++
        " receipts): " ++ fmt2 (acc.total / acc.count) ++ " " ++ ccyDisplay
    else "Invalid aggregation mode specified."

/-- Start date, end date and YYYY-MM token of the current month
(get_current_month_start_end, lines 668-677). -/
def get_current_month_start_end (d : PyDate) : String × String × String :=
  let ym := padNat 4 d.year ++ "-" ++ padNat 2 d.month
  let startOfMonth := ym ++ "-01"
  let endOfMonth :=
    if d.month == 12 then padNat 4 d.year ++ "-12-31"
    else ym ++ "-" ++ padNat 2 (daysInMonth d.year d.month)
  (startOfMonth, endOfMonth, ym)

/-- Date-range sum entry point with format validation
(get_spending_by_date_range_for_user, lines 680-686). -/
def get_spending_by_date_range_for_user (st : FS) (u : String)
    (startD endD : String) : String :=
  if isValidDate startD && isValidDate endD then
    _aggregate_spending st u startD endD "total_by_date"
  else
    "Error: Invalid date format. Please use YYYY-MM-DD for both start and end dates."

/-- Python `{i:04d}` style zero-padded integer formatting. -/
def padInt (width : Nat) (i : ℤ) : String :=
  if i < 0 then "-" ++ padNat (width - 1) i.natAbs else padNat width i.natAbs

/-- The shared month-token parsing of the three month-scoped wrappers
(lines 690-696 and twins): `year, month = map(int, token.split('-'))`, then
`[YYYY-MM-01, last day of month]`, where the last day comes from
`datetime(year, month+1, 1) - timedelta(days=1)` so datetime's constructor
bounds apply on that branch; `none` is the ValueError path. -/
def monthStartEnd (monthYear : String) : Option (String × String) :=
  match pySplitChar monthYear '-' with
  | [ys, ms] =>
      match pyInt ys, pyInt ms with
      | some y, some m =>
          let startD := padInt 4 y ++ "-" ++ padInt 2 m ++ "-01"
          if m == 12 then some (startD, padInt 4 y ++ "-12-31")
          else if 1 ≤ y && y ≤ 9999 && 0 ≤ m && m ≤ 11 && !(m == 0 && y == 1) then
            let endD :=
              if m == 0 then fmtDate ⟨(y - 1).toNat, 12, 31⟩
              else fmtDate ⟨y.toNat, m.toNat, daysInMonth y.toNat m.toNat⟩
            some (startD, endD)
          else none
      | _, _ => none
  | _ => none

/-- Month-scoped category aggregation (get_spending_by_category_for_user,
lines 689-699). -/
def get_spending_by_category_for_user (st : FS) (u : String)
    (monthYear : String) : String :=
  match monthStartEnd monthYear with
  | some (s, e) => _aggregate_spending st u s e "by_category"
  | none => "Error: Invalid month format. Use YYYY-MM (e.g., 2023-10)."

/-- Month-scoped store aggregation (get_spending_by_store_for_user,
lines 703-713). -/
def get_spending_by_store_for_user (st : FS) (u : String)
    (monthYear : String) : String :=
  match monthStartEnd monthYear with
  | some (s, e) => _aggregate_spending st u s e "by_store"
  | none => "Error: Invalid month format. Use YYYY-MM."

/-- Month-scoped average (get_average_receipt_value_for_user,
lines 716-726). -/
def get_average_receipt_value_for_user (st : FS) (u : String)
    (monthYear : String) : String :=
  match monthStartEnd monthYear with
  | some (s, e) => _aggregate_spending st u s e "avg_receipt"
  | none => "Error: Invalid month format. Use YYYY-MM."

/-- The characters reserved by Telegram MarkdownV2
(escape_markdown_v2, line 1332). -/
def escapeMdChars : List Char :=
  ['_', '*', '[', ']', '(', ')', '~', Char.ofNat 96, '>', '#', '+', '-', '=',
   '|', Char.ofNat 123, Char.ofNat 125, '.', '!']

/-- Escapes MarkdownV2-reserved characters (escape_markdown_v2,
lines 1314-1336); non-string input yields the empty string. -/
def escape_markdown_v2 (v : JValue) : String :=
  match v with
  | JValue.jstr s =>
      String.mk (s.data.foldr
        (fun c acc => if escapeMdChars.contains c then '\\' :: c :: acc else c :: acc) [])
  | _ => ""

/-- Python f-string "%.2f" applied to a dynamic value: numbers (and bools,
which are ints) format; strings raise ValueError, everything else
TypeError. -/
def pyFmtFloat2 : JValue → Except PyExc String
  | JValue.jnum q => Except.ok (fmt2 q)
  | JValue.jbool b => Except.ok (if b then "1.00" else "0.00")
  | JValue.jstr _ =>
      Except.error (PyExc.valueError "Unknown format code \x27f\x27 for object of type \x27str\x27")
  | _ => Except.error (PyExc.typeError "unsupported format string passed to NoneType.__format__")

/-- Python str() inside an f-string slot. -/
def fstr (v : JValue) : String := pyStrOf v

/-- One item block of the detailed receipt view (lines 936-958).  Items
that are not objects are never produced by this system's writers and render
through empty defaults. -/
def formatViewItem (ccy : String) (idx : Nat) (it : JValue) :
    Except PyExc String := do
  let d : Dict := match it with | JValue.jobj d => d | _ => []
  let itemName := pyGetD d "item_name" (JValue.jstr ("Item " ++ toString (idx + 1)))
  let itemPrice := pyGetN d "item_price"
  let itemQty := pyGetD d "quantity" (JValue.jnum 1)
  let itemUnit := pyGetD d "unit_of_measurement" (JValue.jstr "unit")
  let itemCat := pyGetD d "grocery_category" (JValue.jstr "Uncategorized")
  let priceDisplay ← if itemPrice.beq JValue.jnull then pure "N/A" else pyFmtFloat2 itemPrice
  let head :=
    "- " ++ escape_markdown_v2 itemName ++ " (" ++ escape_markdown_v2 itemCat ++ ")\n" ++
    "  Qty: " ++ fstr itemQty ++ " " ++ escape_markdown_v2 itemUnit ++
    " | Price: " ++ priceDisplay ++ " " ++ ccy ++ "\n"
  let ppu := pyGetN d "price_per_unit"
  if ppu.beq JValue.jnull then
    pure (head ++ "\n")
  else do
    let ppuDisplay ← pyFmtFloat2 ppu
    pure (head ++ "  (PPU: " ++ ppuDisplay ++ " " ++ ccy ++ "/" ++
      escape_markdown_v2 itemUnit ++ ")\n" ++ "\n")

/-- Sequenced item rendering with the enumerate index. -/
def formatViewItems (ccy : String) (idx : Nat) :
    List JValue → Except PyExc String
  | [] => Except.ok ""
  | it :: rest => do
      let s ← formatViewItem ccy idx it
      let r ← formatViewItems ccy (idx + 1) rest
      pure (s ++ r)

/-- Formats a single receipt for detailed viewing
(format_single_receipt_for_view, lines 906-962).  The result is in Except
because Python's "%.2f" raises on non-numeric stored totals. -/
def format_single_receipt_for_view (d : Dict) : Except PyExc String := do
  if d.isEmpty then return "Error: Receipt data not found."
  let docId := pyGetD d "id" (JValue.jstr "N/A")
  let totalPrice := pyGetD d "total_price" (JValue.jnum 0)
  let ccy := fstr (pyGetD d "currency_code" (JValue.jstr ""))
  let totalDisplay ← pyFmtFloat2 totalPrice
  let header :=
    "🧾 **Receipt Details** (Ref: `" ++ fstr docId ++ "`)\n" ++
    "------------------------------------\n" ++
    "Store: " ++ fstr (pyGetD d "store_name" (JValue.jstr "N/A")) ++ "\n" ++
    "Date: " ++ fstr (pyGetD d "date" (JValue.jstr "N/A")) ++ "\n" ++
    "Total: " ++ totalDisplay ++ " " ++ ccy ++ "\n" ++
    "Uploaded By: `" ++ fstr (pyGetD d "telegramUserId" (JValue.jstr "N/A")) ++ "`\n" ++
    (if (pyGetN d "groupId").truthy then
      "Group ID: `" ++ fstr (pyGetN d "groupId") ++ "`\n" else "") ++
    "Verified: " ++ (if (pyGetN d "isVerifiedByUser").truthy then "Yes" else "No") ++
    (if (pyGetN d "editedBy").truthy then
      " (Edited by: `" ++ fstr (pyGetN d "editedBy") ++ "`)\n" else "\n") ++
    "------------------------------------\n" ++
    "**Items:**\n" ++
    -- the source re-reads the currency and repeats the items heading
    "**Items:**\n"
  let items := match pyGetD d "items" (JValue.jarr []) with
    | JValue.jarr xs => xs
    | _ => []
  let body ←
    if items.isEmpty then pure "- No items found.\n"
    else formatViewItems ccy 0 items
  pure (header ++ body ++ "------------------------------------\n")

/-- Sort test for recent receipts: strictly earlier by (date,
uploadTimestamp). -/
def recentLt (a b : String × Nat) : Bool :=
  strLtList a.1.data b.1.data || (a.1 == b.1 && a.2 < b.2)

/-- Fetches recent receipts for a user or their group, newest first, each
tagged with its document id (get_recent_receipts_for_user,
lines 1043-1073).  Firestore's composite order_by streams only documents
carrying both sort fields; the supporting composite index is assumed
present (its absence is an external store failure). -/
def get_recent_receipts_for_user (st : FS) (u : String)
    (limit : Nat := 20) : List Dict × String :=
  let (queryField, queryValue, contextLabel) := get_query_target st u
  let sortKey : Dict → Option (String × Nat) := fun d =>
    match dictGet d "date", dictGet d "uploadTimestamp" with
    | some (JValue.jstr ds), some (JValue.jtime t) => some (ds, t)
    | _, _ => none
  let matching := st.receipts.filter (fun kv =>
    (match dictGet kv.2 queryField with
     | some x => x.beq (JValue.jstr queryValue)
     | none => false) && (sortKey kv.2).isSome)
  let sorted := sortDescLt (fun a b =>
    recentLt ((sortKey a.2).getD ("", 0)) ((sortKey b.2).getD ("", 0))) matching
  ((sorted.take limit).map (fun kv => dictSet kv.2 "id" (JValue.jstr kv.1)),
   contextLabel)

/-- The per-receipt button-label computation shared by the two list
formatters (lines 1084-1095 and 1252-1262); it can raise on a non-numeric
stored total, which is why the formatters are in Except.  The label itself
feeds only the untracked keyboard. -/
def receiptButtonText (d : Dict) : Except PyExc String := do
  let totalDisplay ← pyFmtFloat2 (pyGetD d "total_price" (JValue.jnum 0))
  let t :=
    fstr (pyGetD d "date" (JValue.jstr "N/A")) ++ " | " ++
    pyTake (fstr (pyGetD d "store_name" (JValue.jstr "Unknown Store"))) 20 ++ " | " ++
    totalDisplay ++ " " ++ fstr (pyGetD d "currency_code" (JValue.jstr ""))
  pure (if t.length > 60 then pyTake t 57 ++ "..." else t)

/-- Formats the recent-receipts list with view buttons
(format_receipt_list_for_display, lines 1075-1108). -/
def format_receipt_list_for_display (receipts : List Dict)
    (contextLabel : String) : Except PyExc String := do
  if receipts.isEmpty then
    return "No recent receipts found " ++ contextLabel ++ "."
  let _ ← receipts.mapM receiptButtonText
  pure ("📄 **Recent Receipts** " ++ contextLabel ++ " (max 20):\n" ++
    "------------------------------------\n" ++
    "Click on a receipt to view details.")

/-- Formats the recent-receipts list with delete-request buttons
(format_receipt_list_for_delete, lines 1243-1275). -/
def format_receipt_list_for_delete (receipts : List Dict)
    (contextLabel : String) : Except PyExc String := do
  if receipts.isEmpty then
    return "No recent receipts found " ++ contextLabel ++ " to delete."
  let withId := receipts.filter (fun d => (dictGet d "id").isSome)
  let _ ← withId.mapM receiptButtonText
  if withId.isEmpty then
    return "Found receipts " ++ contextLabel ++ ", but couldn\x27t create delete buttons."
  pure ("🗑️ **Select Receipt to Delete** " ++ contextLabel ++ " (max 20):\n" ++
    "------------------------------------\n" ++
    "Click on a receipt to request its deletion.")

/-- Fetches a single receipt by id, tagged with its id
(get_receipt_details_for_view, lines 1110-1119). -/
def get_receipt_details_for_view (st : FS) (docId : String) : Option Dict :=
  if docId == "" then none
  else
    match alGet st.receipts docId with
    | some d => some (dictSet d "id" (JValue.jstr docId))
    | none => none

/-- The receipt-group membership test of the edit authorization check
(lines 865-867 and 1151-1153): the receipt carries a non-null groupId and
the acting user's current groupId equals it. -/
def user_in_receipt_group (st : FS) (u : String) (orig : Dict) : Bool :=
  let receiptGid := pyGetN orig "groupId"
  let userGid : JValue :=
    match get_user_group_id st u with
    | some g => JValue.jstr g
    | none => JValue.jnull
  !(receiptGid.beq JValue.jnull) && userGid.beq receiptGid

/-- The edit/view authorization disjunction (lines 862-869): admin, or
original uploader, or member of the receipt's recorded group. -/
def edit_authorized (ctx : Ctx) (st : FS) (u : String) (orig : Dict) : Bool :=
  is_user_admin ctx u ||
  (pyGetN orig "telegramUserId").beq (JValue.jstr u) ||
  user_in_receipt_group st u orig

/-- Handles `/edit <doc_id> {JSON}` from the point where the argument
string has been split and the JSON payload parsed
(handle_edit_receipt_command, lines 825-904).  The prefix of the source
function (usage checks on the argument split, code-fence cleaning, and
json.loads, lines 831-850) touches no state and only produces usage or
syntax error strings; its outcome is the `docId` and `parsed` arguments
here, with `parsed = .error msg` the json.JSONDecodeError path.  The
approval gate of line 828 runs before everything else. -/
def handle_edit_receipt_command (ctx : Ctx) (st : FS) (u : String)
    (docId : String) (parsed : Except String JValue) (today : String)
    (now : Nat) : String × FS :=
  if !is_user_approved ctx st u then
    ("Your account is not approved for this action.", st)
  else
    match parsed with
    | Except.error jemsg =>
        ("Error: The JSON data you provided is invalid. Please check the syntax.\nDetails: " ++ jemsg, st)
    | Except.ok corrected =>
        match alGet st.receipts docId with
        | none =>
            ("Error: Receipt with Reference ID `" ++ docId ++ "` not found.", st)
        | some orig =>
            if !edit_authorized ctx st u orig then
              ("Error: You are not authorized to edit receipt `" ++ docId ++ "`.", st)
            else
              match corrected with
              | JValue.jobj d0 =>
                  let d1 :=
                    match dictGet d0 "items" with
                    | some (JValue.jarr _) => d0
                    | _ => dictSet d0 "items" (JValue.jarr [])
                  let d2 :=
                    if (dictGet d1 "date").isSome then d1
                    else dictSet d1 "date" (pyGetD orig "date" (JValue.jstr today))
                  let p1 := dictSet d2 "telegramUserId" (pyGetN orig "telegramUserId")
                  let p2 := dictSet p1 "uploadTimestamp" (pyGetN orig "uploadTimestamp")
                  let p3 :=
                    match dictGet orig "groupId" with
                    | some g =>
                        if !(g.beq JValue.jnull) then dictSet p2 "groupId" g
                        else dictPop p2 "groupId"
                    | none => dictPop p2 "groupId"
                  let p4 := dictSet p3 "lastUpdatedAt" JValue.jts
                  let p5 := dictSet p4 "isVerifiedByUser" (JValue.jbool true)
                  let p6 := dictSet p5 "editedBy" (JValue.jstr u)
                  ("✅ Receipt `" ++ docId ++ "` updated successfully!",
                   { st with receipts := alSet st.receipts docId (resolveDict now p6) })
              | _ => ("Error: The corrected data must be a valid JSON object.", st)

/-- Performs the delete authorization check and deletes the receipt
(delete_receipt_from_firestore, lines 1285-1312). -/
def delete_receipt_from_firestore (ctx : Ctx) (st : FS) (u : String)
    (docId : String) : String × FS :=
  match alGet st.receipts docId with
  | none => ("Error: Receipt Ref: `" ++ docId ++ "` no longer exists.", st)
  | some orig =>
      if !(is_user_admin ctx u || (pyGetN orig "telegramUserId").beq (JValue.jstr u)) then
        ("Error: You are not authorized to delete receipt Ref: `" ++ docId ++
           "`. Only the uploader or admin can delete.", st)
      else
        ("✅ Receipt Ref: `" ++ docId ++ "` has been deleted.",
         { st with receipts := alDel st.receipts docId })

/-- Header fields recognised by the multi-line edit format
(parse_edited_receipt_text, lines 987-993). -/
structure EditHeader where
  store_name : Option String := none
  date : Option String := none
  total_price : Option ℚ := none
  currency_code : Option String := none
deriving DecidableEq, Repr

/-- Loop state of the header scan of parse_edited_receipt_text. -/
structure HdrScan where
  docId : Option String := none
  header : EditHeader := {}
  errors : List String := []
  hlc : Nat := 0

/-- One recognised-or-not header line (lines 1002-1026).  A recognised key
always advances header_lines_count, even when its value fails to parse; an
unrecognised key is complained about only within the first five lines. -/
def handleHeaderLine (s : HdrScan) (i : Nat) (line : String) : HdrScan :=
  match pySplitFirst line ':' with
  | [keyRaw, valueRaw] =>
      let keyClean := pyLower (pyStrip keyRaw)
      let valueClean := pyStrip valueRaw
      if keyClean == "ref" then
        { s with docId := some valueClean, hlc := i + 1 }
      else if keyClean == "total" then
        match pyFloat valueClean with
        | some q => { s with header.total_price := some q, hlc := i + 1 }
        | none =>
            let errs := s.errors ++
              ["Invalid format for Total Price: \x27" ++ valueClean ++ "\x27. Must be a number."]
            { s with errors := errs, hlc := i + 1 }
      else if keyClean == "date" then
        if isValidDate valueClean then
          { s with header.date := some valueClean, hlc := i + 1 }
        else
          let errs := s.errors ++
            ["Invalid format for Date: \x27" ++ valueClean ++ "\x27. Must be YYYY-MM-DD."]
          { s with errors := errs, hlc := i + 1 }
      else if keyClean == "store" then
        { s with header.store_name := some valueClean, hlc := i + 1 }
      else if keyClean == "currency" then
        { s with header.currency_code := some valueClean, hlc := i + 1 }
      else if i < 5 then
        { s with errors := s.errors ++
            ["Unrecognized header line (or misplaced item): \x27" ++ line ++ "\x27"] }
      else s
  | _ => s

/-- The header scan (lines 995-1033): stops at the first semicolon line,
whose suffix becomes the raw item lines. -/
def scanHeaderLines (s : HdrScan) (i : Nat) :
    List String → HdrScan × List String
  | [] => (s, [])
  | line :: rest =>
      let lineLower := pyStrip (pyLower line)
      if lineLower == "" then scanHeaderLines s (i + 1) rest
      else
        let isItemLine := pyContainsChar line ';'
        if !isItemLine && pyContainsChar line ':' then
          scanHeaderLines (handleHeaderLine s i line) (i + 1) rest
        else if isItemLine then
          (s, line :: rest)
        else if i ≥ s.hlc && pyStrip line ≠ "" then
          scanHeaderLines
            { s with errors := s.errors ++
                ["Unexpected line after headers (expected item or empty line): \x27" ++ line ++ "\x27"] }
            (i + 1) rest
        else scanHeaderLines s (i + 1) rest

/-- Parses the multi-line edit input
(parse_edited_receipt_text, lines 971-1039). -/
def parse_edited_receipt_text (text : String) :
    Option String × EditHeader × List String × List String :=
  let lines := pySplitChar (pyStrip text) '\n'
  -- Python str.split never yields an empty list, so the source's
  -- "No data provided" branch is unreachable and elided.
  let (s, itemsRaw) := scanHeaderLines {} 0 lines
  let docTruthy := match s.docId with | some d => d ≠ "" | none => false
  let errors :=
    if !docTruthy then
      s.errors ++ ["`Ref: <ID>` line is missing or improperly formatted."]
    else s.errors
  (s.docId, s.header, itemsRaw, errors)

/-- Parsed-items loop state (handle_simple_edit_receipt_command,
lines 1168-1169). -/
structure ItemAcc where
  items : List Dict := []
  errors : List String := []

/-- One raw item line (lines 1170-1212): `Name; Price; Category;
[Quantity; Unit]`, with an invalid price skipping the item and an invalid
quantity defaulting to 1 while still recording an error. -/
def parseItemLine (acc : ItemAcc) (idx : Nat) (rawLine : String) : ItemAcc :=
  let line := pyStrip rawLine
  if line == "" then acc
  else
    let parts := (pySplitChar line ';').map pyStrip
    if parts.length < 3 then
      { acc with errors := acc.errors ++
          ["Item line " ++ toString (idx + 1) ++ " (\x27" ++ pyTake line 30 ++
           "...\x27) has too few parts. Expected: Name; Price; Category; [Quantity; Unit]"] }
    else
      let itemName := parts.getD 0 ""
      let priceStr := parts.getD 1 ""
      let itemCat := parts.getD 2 ""
      let qtyStr := if parts.length > 3 then parts.getD 3 "1" else "1"
      let unit := if parts.length > 4 then parts.getD 4 "unit" else "unit"
      match pyFloat priceStr with
      | none =>
          { acc with errors := acc.errors ++
              ["Item \x27" ++ itemName ++ "\x27: Invalid price \x27" ++ priceStr ++
               "\x27. Must be a number."] }
      | some price =>
          let parsedQty :=
            if pyContainsChar qtyStr '.' then pyFloat qtyStr
            else (pyInt qtyStr).map (fun i => (i : ℚ))
          let (qty, qtyErrs) :=
            match parsedQty with
            | some q => (q, ([] : List String))
            | none =>
                (1, ["Item \x27" ++ itemName ++ "\x27: Invalid quantity \x27" ++
                     qtyStr ++ "\x27. Defaulting to 1."])
          let ppu : JValue :=
            if qty > 0 then JValue.jnum (pyRound2 (price / qty))
            else JValue.jnum price
          let itemDict : Dict :=
            [("item_name", JValue.jstr itemName),
             ("item_price", JValue.jnum price),
             ("grocery_category", JValue.jstr itemCat),
             ("quantity", JValue.jnum qty),
             ("unit_of_measurement", JValue.jstr unit),
             ("price_per_unit", ppu)]
          { acc with items := acc.items ++ [itemDict], errors := acc.errors ++ qtyErrs }

/-- The enumerate loop over raw item lines. -/
def parseItemsAux (acc : ItemAcc) (idx : Nat) : List String → ItemAcc
  | [] => acc
  | l :: rest => parseItemsAux (parseItemLine acc idx l) (idx + 1) rest

/-- Handles the simple-text `/edit` command
(handle_simple_edit_receipt_command, lines 1121-1241). -/
def handle_simple_edit_receipt_command (ctx : Ctx) (st : FS) (u : String)
    (fullEditText : String) (today : String) (now : Nat) : String × FS :=
  if !is_user_approved ctx st u then
    ("Your account is not approved for this action.", st)
  else
    let (docIdOpt, hdr, itemLinesRaw, parseErrors) :=
      parse_edited_receipt_text fullEditText
    let docTruthy := match docIdOpt with | some d => d ≠ "" | none => false
    if !docTruthy then
      ("Error parsing your edit request:\n" ++
        String.intercalate "\n"
          ("Could not identify the Receipt Reference ID." :: parseErrors) ++
        "\nPlease use the specified format.", st)
    else
      let docId := docIdOpt.getD ""
      if !parseErrors.isEmpty && itemLinesRaw.isEmpty then
        ("Error parsing receipt headers:\n" ++
          String.intercalate "\n" parseErrors ++
          "\nPlease check the format for Store, Date, Total, and Ref ID.", st)
      else
        match alGet st.receipts docId with
        | none =>
            ("Error: Receipt with Reference ID `" ++ docId ++ "` not found.", st)
        | some orig =>
            if !edit_authorized ctx st u orig then
              ("Error: You are not authorized to edit receipt `" ++ docId ++ "`.", st)
            else
              let corrected : Dict :=
                [("store_name", (hdr.store_name.map JValue.jstr).getD (pyGetN orig "store_name")),
                 ("date", (hdr.date.map JValue.jstr).getD (pyGetD orig "date" (JValue.jstr today))),
                 ("total_price", (hdr.total_price.map JValue.jnum).getD (pyGetN orig "total_price")),
                 ("currency_code", (hdr.currency_code.map JValue.jstr).getD (pyGetN orig "currency_code"))]
              let itemAcc := parseItemsAux {} 0 itemLinesRaw
              let allErrors := parseErrors ++ itemAcc.errors
              if !allErrors.isEmpty then
                ("Found errors in your edit input:\n" ++
                  String.intercalate "\n" allErrors ++
                  "\n\nPlease correct these and try `/edit` again.", st)
              else
                let d2 := dictSet corrected "items"
                  (JValue.jarr (itemAcc.items.map JValue.jobj))
                let p1 := dictSet d2 "telegramUserId" (pyGetN orig "telegramUserId")
                let p2 := dictSet p1 "uploadTimestamp" (pyGetN orig "uploadTimestamp")
                let p3 :=
                  match dictGet orig "groupId" with
                  | some g =>
                      if !(g.beq JValue.jnull) then dictSet p2 "groupId" g
                      else dictPop p2 "groupId"
                  | none => dictPop p2 "groupId"
                let p4 := dictSet p3 "lastUpdatedAt" JValue.jts
                let p5 := dictSet p4 "isVerifiedByUser" (JValue.jbool true)
                let p6 := dictSet p5 "editedBy" (JValue.jstr u)
                ("✅ Receipt `" ++ docId ++ "` updated successfully with your changes!",
                 { st with receipts := alSet st.receipts docId (resolveDict now p6) })

/-- A Telegram document attachment. -/
structure TgDocument where
  fileId : String
  fileName : String
  mimeType : Option String
deriving DecidableEq, Repr

/-- An inbound text/photo/document message.  `photo` carries the file id of
the largest photo size when present. -/
structure TgMessage where
  chatId : String
  fromUser : String
  text : Option String := none
  photo : Option String := none
  document : Option TgDocument := none
  messageId : Nat := 0
deriving DecidableEq, Repr

/-- An inbound button press (callback query, always attached to the message
that carried the button). -/
structure TgCallback where
  chatId : String
  fromUser : String
  data : String
  messageId : Nat := 0
deriving DecidableEq, Repr

/-- A parsed webhook update. -/
structure TgUpdate where
  message : Option TgMessage := none
  callback : Option TgCallback := none
deriving DecidableEq, Repr

/-- The wall clock of one invocation: datetime.now() and the value server
timestamps resolve to at this invocation's writes. -/
structure Clock where
  date : PyDate
  now : Nat
deriving DecidableEq, Repr

/-- datetime.now().strftime("%Y-%m-%d") for this invocation. -/
def Clock.today (c : Clock) : String := fmtDate c.date

/-- The observable outcome of one webhook invocation: final store state,
ordered outbound traffic, and either an HTTP status or an uncaught Python
exception escaping the handler. -/
structure WHRes where
  state : FS
  out : List Out
  resp : Except PyExc Nat

/-- Control flow between dispatcher stages: an immediate return (or an
escaping exception), or fall-through with the accumulated state/output. -/
inductive StepRes where
  | ret (r : WHRes)
  | cont (st : FS) (outs : List Out)

/-- The /adminhelp text (lines 1426-1434). -/
def adminHelpText : String :=
  "Admin Commands:\n" ++
  "/listusers [pending|approved|banned|all]\n" ++
  "/approveuser <user_id>\n" ++
  "/banuser <user_id>\n" ++
  "/setuserstatus <user_id> <status>\n" ++
  "/admincreategroup <group_name> [user_id1 user_id2 ...]\n" ++
  "/addusertogroup <user_id> <group_id>\n" ++
  "/removeuserfromgroup <user_id> <group_id>\n" ++
  "/deletegroup <group_id>"

/-- Earliest quote character (single or double, matching the regex
character class `["\x27]`) in a character list, split there. -/
def findQuote : List Char → Option (List Char × List Char)
  | [] => none
  | c :: cs =>
      if c == '"' || c == Char.ofNat 39 then some ([], cs)
      else
        match findQuote cs with
        | some (a, b) => some (c :: a, b)
        | none => none

/-- Argument parsing of /admincreategroup (lines 1452-1466): an optionally
quoted group name followed by member ids, else first word as the name. -/
def adminCreateGroupParse (fullArg : String) : String × List String :=
  if fullArg == "" then ("", [])
  else
    let quoted : Option (String × List String) :=
      match fullArg.data with
      | c :: rest =>
          if c == '"' || c == Char.ofNat 39 then
            match findQuote rest with
            | some (nm, after) =>
                some (String.mk nm,
                  pySplitWs (String.mk (after.dropWhile Char.isWhitespace)))
            | none => none
          else none
      | [] => none
    match quoted with
    | some r => r
    | none =>
        let parts := pySplitMax1 fullArg
        (parts.getD 0 "",
         if parts.length > 1 then pySplitWs (parts.getD 1 "") else [])

/-- The admin command block (lines 1422-1512).  Inl carries the
admin_action_handled flag with the updated state and output; inr is an
immediate return from inside a branch: the /admincreategroup branch
returns 200 directly (its trailing duplicate send is unreachable dead
code, line 1474-1475), and /addusertogroup with two arguments evaluates
the undefined name admin_add_user_to_group, raising NameError. -/
def adminInner (ctx : Ctx) (now : Nat) (st : FS) (outs : List Out)
    (chat uid cmd : String) (args : List String) (fullArg : String) :
    (Bool × FS × List Out) ⊕ WHRes :=
  if cmd == "/adminhelp" then
    Sum.inl (true, st, outs ++ [Out.send chat adminHelpText])
  else if cmd == "/listusers" then
    Sum.inl (true, st, outs ++ [Out.send chat (admin_list_users st (args.getD 0 "all"))])
  else if cmd == "/approveuser" then
    if args.isEmpty then
      Sum.inl (true, st, outs ++ [Out.send chat "Usage: /approveuser <user_id>"])
    else
      let (m, st', notifs) := admin_set_user_status st (args.getD 0 "") "approved" now
      Sum.inl (true, st', outs ++ notifs ++ [Out.send chat m])
  else if cmd == "/banuser" then
    if args.isEmpty then
      Sum.inl (true, st, outs ++ [Out.send chat "Usage: /banuser <user_id>"])
    else
      let (m, st', notifs) := admin_set_user_status st (args.getD 0 "") "banned" now
      Sum.inl (true, st', outs ++ notifs ++ [Out.send chat m])
  else if cmd == "/setuserstatus" then
    if args.length == 2 then
      let (m, st', notifs) := admin_set_user_status st (args.getD 0 "") (args.getD 1 "") now
      Sum.inl (true, st', outs ++ notifs ++ [Out.send chat m])
    else
      Sum.inl (true, st, outs ++
        [Out.send chat "Usage: /setuserstatus <user_id> <approved|banned|pending_approval>"])
  else if cmd == "/admincreategroup" then
    let (groupName, initialMembers) := adminCreateGroupParse fullArg
    if groupName == "" then
      Sum.inr ⟨st, outs ++
        [Out.send chat "Usage: /admincreategroup \"Group Name\" [UserID1 UserID2 ...]"],
        Except.ok 200⟩
    else
      let (_, m, st') := create_group_in_firestore ctx st uid groupName initialMembers now
      Sum.inr ⟨st', outs ++ [Out.send chat m], Except.ok 200⟩
  else if cmd == "/addusertogroup" then
    if args.length == 2 then
      Sum.inr ⟨st, outs, Except.error (PyExc.nameError "admin_add_user_to_group")⟩
    else
      Sum.inl (true, st, outs ++ [Out.send chat "Usage: /addusertogroup <user_id> <group_id>"])
  else if cmd == "/removeuserfromgroup" then
    if args.length == 2 then
      let (m, st') := admin_remove_user_from_group st (args.getD 0 "") (args.getD 1 "") now
      Sum.inl (true, st', outs ++ [Out.send chat m])
    else
      Sum.inl (true, st, outs ++ [Out.send chat "Usage: /removeuserfromgroup <user_id> <group_id>"])
  else if cmd == "/deletegroup" then
    if args.isEmpty then
      Sum.inl (true, st, outs ++ [Out.send chat "Usage: /deletegroup <group_id>"])
    else
      let (m, st') := admin_delete_group st (args.getD 0 "") now
      Sum.inl (true, st', outs ++ [Out.send chat m])
  else if cmd == "admin_menu" then
    Sum.inl (true, st, outs ++ [Out.send chat "Admin Panel:"])
  else if cmd == "admin_list_pending" then
    Sum.inl (true, st, outs ++ [Out.send chat (admin_list_users st "pending_approval")])
  else if cmd == "admin_list_approved" then
    Sum.inl (true, st, outs ++ [Out.send chat (admin_list_users st "approved")])
  else if cmd == "admin_list_all" then
    Sum.inl (true, st, outs ++ [Out.send chat (admin_list_users st "all")])
  else if cmd == "admin_approve_prompt" then
    Sum.inl (true, st, outs ++ [Out.send chat "Type: `/approveuser USER_ID_TO_APPROVE`"])
  else if cmd == "admin_ban_prompt" then
    Sum.inl (true, st, outs ++ [Out.send chat "Type: `/banuser USER_ID_TO_BAN`"])
  else if cmd == "admin_creategroup_prompt" then
    Sum.inl (true, st, outs ++
      [Out.send chat "Type: `/admincreategroup \"Group Name\" OptionalUserID1 OptionalUserID2 ...`"])
  else if cmd == "admin_addtogroup_prompt" then
    Sum.inl (true, st, outs ++ [Out.send chat "Type: `/addusertogroup USER_ID_TO_ADD GROUP_ID`"])
  else if cmd == "admin_removefromgroup_prompt" then
    Sum.inl (true, st, outs ++ [Out.send chat "Type: `/removeuserfromgroup USER_ID_TO_REMOVE GROUP_ID`"])
  else if cmd == "admin_deletegroup_prompt" then
    Sum.inl (true, st, outs ++ [Out.send chat "Type: `/deletegroup GROUP_ID_TO_DELETE`"])
  else
    Sum.inl (false, st, outs)

/-- Post-processing of the admin block (lines 1510-1512): a handled admin
action returns 200 unless the token is one of the shared fall-throughs. -/
def adminDispatch (ctx : Ctx) (now : Nat) (st : FS) (outs : List Out)
    (chat uid cmd : String) (args : List String) (fullArg : String) : StepRes :=
  match adminInner ctx now st outs chat uid cmd args fullArg with
  | Sum.inr r => StepRes.ret r
  | Sum.inl (handled, st', outs') =>
      if handled && !(cmd == "/start" || cmd == "/menu" || cmd == "main_menu") then
        StepRes.ret ⟨st', outs', Except.ok 200⟩
      else StepRes.cont st' outs'

/-- The post-extraction save-and-render path of the image pipeline
(lines 1583-1627): discard the extractor's date in favour of the
processing date, tag with uploader and current group, stamp timestamps and
isVerifiedByUser=false, persist, then render (whose formatting can itself
raise, still inside the pipeline's try).  Returns the post-save state and
either the message texts to send or the exception for the except ladder. -/
def process_image_success (st : FS) (u : String) (llmDict : Dict)
    (today : String) (now : Nat) : FS × Except PyExc (List String) :=
  let d1 := dictPop llmDict "date"
  let d2 := dictSet d1 "date" (JValue.jstr today)
  let d3 := dictSet d2 "telegramUserId" (JValue.jstr u)
  let d4 :=
    match get_user_group_id st u with
    | some g => if g ≠ "" then dictSet d3 "groupId" (JValue.jstr g) else dictPop d3 "groupId"
    | none => dictPop d3 "groupId"
  let d5 := dictSet d4 "uploadTimestamp" JValue.jts
  let d6 := dictSet d5 "lastUpdatedAt" JValue.jts
  let d7 := dictSet d6 "isVerifiedByUser" (JValue.jbool false)
  let docId := "R" ++ toString st.nextId
  let st1 := { st with
    receipts := alSet st.receipts docId (resolveDict now d7)
    nextId := st.nextId + 1 }
  let msgs : Except PyExc (List String) :=
    match format_single_receipt_for_view d7 with
    | Except.error e => Except.error e
    | Except.ok formatted =>
        if formatted.length > 4000 then
          match pyFmtFloat2 (pyGetD d7 "total_price" (JValue.jnum 0)) with
          | Except.error e => Except.error e
          | Except.ok totalDisplay =>
              Except.ok
                ["🧾 Receipt Processed & Saved (Ref: `" ++ docId ++ "`)\n" ++
                 "Store: " ++ fstr (pyGetD d7 "store_name" (JValue.jstr "N/A")) ++ "\n" ++
                 "Date: " ++ fstr (pyGetD d7 "date" (JValue.jstr "N/A")) ++ "\n" ++
                 "Total: " ++ totalDisplay ++ " " ++
                   fstr (pyGetD d7 "currency_code" (JValue.jstr "")) ++ "\n\n" ++
                 "The full details were too long to display here. " ++
                 "You can still edit it using the Ref ID and the JSON structure if needed. " ++
                 "To edit, see instructions after sending `/edithelp` or refer to the standard edit format."]
        else Except.ok [formatted]
  (st1, msgs)

/-- The except ladder of the image pipeline (lines 1629-1638): ValueError
surfaces its message, Telegram errors and any other exception surface fixed
texts; the pipeline never lets an exception escape. -/
def imageExceptText (e : PyExc) : String :=
  match e with
  | PyExc.valueError m => "Receipt Processing Error: " ++ m
  | PyExc.telegramError _ => "A Telegram error occurred while processing your receipt."
  | _ => "An unexpected error occurred while processing the receipt image."

/-- Outcome of a sequential user-handler chain: fall through to what
follows, or an exception escaping the handler. -/
inductive ChainRes where
  | ok (st : FS) (outs : List Out)
  | raised (st : FS) (outs : List Out) (e : PyExc)

/-- The pending-approval notice repeated by the status gate
(lines 1532-1535). -/
def pendingNoticeText (u : String) : String :=
  "Your account is pending approval. Your User ID is `" ++ u ++
  "`. Please wait or contact the administrator."

/-- The /edit usage instructions (lines 1762-1772). -/
def editInstructionsText : String :=
  "To edit, send a message starting with `/edit` on a new line, then paste the `Ref:` line, followed by the corrected details in this format (one item per line):\n\n" ++
  "`Ref: <PASTE_REF_ID_HERE>`\n" ++
  "`Store: New Store Name (optional)`\n" ++
  "`Date: YYYY-MM-DD (optional)`\n" ++
  "`Total: <new_total_price>`\n" ++
  "`Item Name 1; Price 1; Category 1; Quantity 1; Unit 1`\n" ++
  "`...`\n\n" ++
  "Use semicolons (;) to separate item details."

/-- The first user dispatch chain (lines 1646-1707): the /deletereceipts
command and the three delete-flow callbacks.  The delete-execute and
delete-cancel callbacks call the undefined name edit_tg_message to mutate
the confirmation message, so both raise NameError after their store
work. -/
def userChain1 (ctx : Ctx) (st : FS) (outs : List Out)
    (chat uid cmd : String) (upd : TgUpdate) : ChainRes :=
  if cmd == "/deletereceipts" then
    if !is_user_approved ctx st uid then
      ChainRes.ok st (outs ++ [Out.send chat "Your account is not approved for this action."])
    else
      let (receipts, label) := get_recent_receipts_for_user st uid
      match format_receipt_list_for_delete receipts label with
      | Except.ok m => ChainRes.ok st (outs ++ [Out.send chat m])
      | Except.error e => ChainRes.raised st outs e
  else if cmd ≠ "" && pyStartsWith cmd "del_confirm_req_" then
    let docId := pyReplace cmd "del_confirm_req_" ""
    if docId == "" then
      ChainRes.ok st (outs ++ [Out.send chat "Error: Invalid receipt reference in button."])
    else
      match get_receipt_details_for_view st docId with
      | none =>
          ChainRes.ok st (outs ++
            [Out.send chat ("Error: Receipt Ref: `" ++ docId ++ "` not found (maybe already deleted?).")])
      | some r =>
          if !(is_user_admin ctx uid || (pyGetN r "telegramUserId").beq (JValue.jstr uid)) then
            ChainRes.ok st (outs ++
              [Out.send chat ("Error: You are not authorized to delete receipt Ref: `" ++ docId ++ "`.")])
          else
            match pyFmtFloat2 (pyGetD r "total_price" (JValue.jnum 0)) with
            | Except.error e => ChainRes.raised st outs e
            | Except.ok totalDisplay =>
                ChainRes.ok st (outs ++ [Out.send chat
                  ("❓ **Confirm Deletion**\n\n" ++
                   "Are you sure you want to permanently delete receipt:\n" ++
                   "Ref: `" ++ docId ++ "`\n" ++
                   "Store: " ++ escape_markdown_v2 (pyGetD r "store_name" (JValue.jstr "N/A")) ++ "\n" ++
                   "Date: " ++ fstr (pyGetD r "date" (JValue.jstr "N/A")) ++ "\n" ++
                   "Total: " ++ totalDisplay ++ " " ++
                     fstr (pyGetD r "currency_code" (JValue.jstr "")) ++ "\n\n" ++
                   "⚠️ This action cannot be undone!")])
  else if cmd ≠ "" && pyStartsWith cmd "del_do_" then
    let docId := pyReplace cmd "del_do_" ""
    if docId == "" then
      ChainRes.ok st (outs ++ [Out.send chat "Error: Invalid receipt reference in delete confirmation."])
    else
      let (m, st') := delete_receipt_from_firestore ctx st uid docId
      match upd.callback with
      | some _ => ChainRes.raised st' outs (PyExc.nameError "edit_tg_message")
      | none => ChainRes.ok st' (outs ++ [Out.send chat m])
  else if cmd ≠ "" && pyStartsWith cmd "del_cancel_" then
    let docId := pyReplace cmd "del_cancel_" ""
    let cancelMsg := "Deletion cancelled for receipt Ref: `" ++ docId ++ "`."
    match upd.callback with
    | some _ => ChainRes.raised st outs (PyExc.nameError "edit_tg_message")
    | none => ChainRes.ok st (outs ++ [Out.send chat cancelMsg])
  else ChainRes.ok st outs

/-- The /edit payload resolution (lines 1750-1759). -/
def editPayloadOf (fullArg : String) (upd : TgUpdate) : String :=
  if fullArg ≠ "" then fullArg
  else
    match upd.message with
    | some m =>
        match m.text with
        | some t =>
            let lines := pySplitFirst (pyStrip t) '\n'
            if lines.length > 1 && pyLower (pyStrip (lines.getD 0 "")) == "/edit" then
              pyStrip (lines.getD 1 "")
            else ""
        | none => ""
    | none => ""

/-- The second user dispatch chain (lines 1709-1831): menu and summary
handlers, /edit, the unmatched-input fallbacks, and the list/delete/view
receipt handlers. -/
def userChain2 (ctx : Ctx) (clk : Clock) (st : FS) (outs : List Out)
    (chat uid cmd : String) (args : List String) (fullArg : String)
    (textPayload : Option String) (upd : TgUpdate) : ChainRes :=
  let (startOfMonth, endOfMonth, currentMonthYear) := get_current_month_start_end clk.date
  if cmd == "main_menu" then
    ChainRes.ok st (outs ++ [Out.send chat "Main Menu:"])
  else if cmd == "group_menu_user" then
    ChainRes.ok st (outs ++ [Out.send chat "Group Options:"])
  else if cmd == "mygroup_info_action" then
    let (m, st') := get_my_group_info st uid
    ChainRes.ok st' (outs ++ [Out.send chat m])
  else if cmd == "leavegroup_action_user" then
    let (m, st') := user_leave_group ctx st uid clk.now
    ChainRes.ok st' (outs ++ [Out.send chat m])
  else if cmd == "summary_current_month" then
    ChainRes.ok st (outs ++
      [Out.send chat (get_spending_by_date_range_for_user st uid startOfMonth endOfMonth)])
  else if cmd == "summary_category_current_month" then
    ChainRes.ok st (outs ++
      [Out.send chat (get_spending_by_category_for_user st uid currentMonthYear)])
  else if cmd == "summary_store_current_month" then
    ChainRes.ok st (outs ++
      [Out.send chat (get_spending_by_store_for_user st uid currentMonthYear)])
  else if cmd == "summary_avg_receipt_current_month" then
    ChainRes.ok st (outs ++
      [Out.send chat (get_average_receipt_value_for_user st uid currentMonthYear)])
  else if cmd == "summary_date_range_prompt" then
    ChainRes.ok st (outs ++
      [Out.send chat "To get a summary for a custom date range, type:\n`/daterange YYYY-MM-DD YYYY-MM-DD`"])
  else if cmd == "/daterange" then
    if args.length == 2 then
      ChainRes.ok st (outs ++
        [Out.send chat (get_spending_by_date_range_for_user st uid (args.getD 0 "") (args.getD 1 ""))])
    else
      ChainRes.ok st (outs ++ [Out.send chat "Usage: /daterange YYYY-MM-DD_START YYYY-MM-DD_END"])
  else if cmd == "/creategroup" then
    ChainRes.ok st (outs ++
      [Out.send chat "Group creation is managed by the administrator. You can ask them to create a group for you."])
  else if cmd == "/joingroup" then
    ChainRes.ok st (outs ++
      [Out.send chat "To join a group, please ask the administrator to add you using your User ID."])
  else if cmd == "/edit" then
    let payload := editPayloadOf fullArg upd
    if payload == "" then
      ChainRes.ok st (outs ++ [Out.send chat editInstructionsText])
    else
      let (m, st') := handle_simple_edit_receipt_command ctx st uid payload clk.today clk.now
      ChainRes.ok st' (outs ++ [Out.send chat m])
  else if (match upd.message with
           | some m => m.text.isSome
           | none => false) && cmd == "" && textPayload ≠ some "/start" then
    ChainRes.ok st (outs ++
      [Out.send chat "I didn\x27t understand that. Send a receipt image or use /menu for options."])
  else if upd.callback.isSome && cmd == "" then
    -- unmatched callback data: logged only, no user-visible reply
    ChainRes.ok st outs
  else if textPayload == none &&
      !(match upd.message with | some m => m.photo.isSome | none => false) then
    -- empty or unhandled update type: logged only
    ChainRes.ok st outs
  else if cmd == "list_receipts_action" || cmd == "/listreceipts" then
    let (receipts, label) := get_recent_receipts_for_user st uid
    match format_receipt_list_for_display receipts label with
    | Except.ok m => ChainRes.ok st (outs ++ [Out.send chat m])
    | Except.error e => ChainRes.raised st outs e
  else if cmd == "delete_receipts_action" || cmd == "/deletereceipts" then
    if !is_user_approved ctx st uid then
      ChainRes.ok st (outs ++ [Out.send chat "Your account is not approved."])
    else
      let (receipts, label) := get_recent_receipts_for_user st uid
      match format_receipt_list_for_delete receipts label with
      | Except.ok m => ChainRes.ok st (outs ++ [Out.send chat m])
      | Except.error e => ChainRes.raised st outs e
  else if cmd ≠ "" && pyStartsWith cmd "view_receipt_" then
    let docId := pyReplace cmd "view_receipt_" ""
    if docId == "" then
      ChainRes.ok st (outs ++ [Out.send chat "Error: Invalid receipt reference in button."])
    else
      match get_receipt_details_for_view st docId with
      | none =>
          ChainRes.ok st (outs ++
            [Out.send chat ("Error: Could not find receipt details for Ref: `" ++ docId ++ "`")])
      | some details =>
          if !edit_authorized ctx st uid details then
            ChainRes.ok st (outs ++
              [Out.send chat ("Error: You are not authorized to view receipt `" ++ docId ++ "`.")])
          else
            match format_single_receipt_for_view details with
            | Except.ok m => ChainRes.ok st (outs ++ [Out.send chat m])
            | Except.error e => ChainRes.raised st outs e
  else ChainRes.ok st outs

/-- Identity resolution from the update (lines 1370-1389): chat id, user id
and the text payload (message text or callback data). -/
def resolveEvent (upd : TgUpdate) : Option (String × String × Option String) :=
  match upd.message with
  | some m =>
      if m.chatId == "" || m.fromUser == "" then none
      else some (m.chatId, m.fromUser, m.text)
  | none =>
      match upd.callback with
      | some cb =>
          if cb.chatId == "" || cb.fromUser == "" then none
          else some (cb.chatId, cb.fromUser, some cb.data)
      | none => none

/-- Command/argument parsing (lines 1396-1410): slash-prefixed text is
split and lowercased; bare callback data becomes the action token. -/
def parseCommandAction (upd : TgUpdate) (textPayload : Option String) :
    String × List String × String :=
  match textPayload with
  | some t =>
      if pyStartsWith t "/" then
        let parts := pySplitMax1 t
        let fullArg := if parts.length > 1 then parts.getD 1 "" else ""
        (pyLower (parts.getD 0 ""), pySplitWs fullArg, fullArg)
      else if upd.callback.isSome then (t, [], "")
      else ("", [], "")
  | none => ("", [], "")

/-- Image detection (lines 1543-1563): a photo, or a document whose
declared media type is an image type; a non-image document draws a
rejection notice and continues to text dispatch. -/
def detectImage (upd : TgUpdate) (chat : String) :
    Option (String × String × String) × List Out :=
  match upd.message with
  | some m =>
      match m.photo with
      | some fid => (some (fid, "telegram_photo.jpg", "image/jpeg"), [])
      | none =>
          match m.document with
          | some doc =>
              match doc.mimeType with
              | some mt =>
                  if pyStartsWith mt "image/" then
                    (some (doc.fileId, doc.fileName, mt), [])
                  else
                    (none, [Out.send chat "You sent a file, but it doesn\x27t appear to be an image. Please send a photo or an image file (JPEG, PNG)."])
              | none =>
                  (none, [Out.send chat "You sent a file, but it doesn\x27t appear to be an image. Please send a photo or an image file (JPEG, PNG)."])
          | none => (none, [])
  | none => (none, [])

/-- The webhook dispatch core (telegram_webhook, lines 1339-1837), from the
point where the update has been parsed from a POST body (the HTTP envelope
— 405 on non-POST, 400 on an unparseable body — precedes this and sends
nothing).  `img` is the oracle for the external fetch-and-extract calls of
the image pipeline (bot.get_file, requests.get, call_llm_for_receipt):
their combined result or the exception they raise. -/
def telegram_webhook (ctx : Ctx) (clk : Clock) (img : Except PyExc Dict)
    (st0 : FS) (upd : TgUpdate) : WHRes :=
  match resolveEvent upd with
  | none => ⟨st0, [], Except.ok 400⟩
  | some (chat, uid, textPayload) =>
      let (profile, st1, o1) :=
        ensure_user_profile_exists ctx st0 uid (some chat) clk.now
      let status := profile.status.getD "pending_approval"
      let isAdm := is_user_admin ctx uid
      let (cmd0, args, fullArg) := parseCommandAction upd textPayload
      match
        (if isAdm then adminDispatch ctx clk.now st1 o1 chat uid cmd0 args fullArg
         else StepRes.cont st1 o1) with
      | StepRes.ret r => r
      | StepRes.cont st2 o2 =>
          -- the shared /start handler (lines 1515-1525)
          let startStage : WHRes ⊕ (String × List Out) :=
            if cmd0 == "/start" then
              if status == "pending_approval" && !isAdm then
                Sum.inr ("/start", o2)  -- notice already sent on creation; returns below
              else if status == "banned" && !isAdm then
                Sum.inl ⟨st2, o2 ++ [Out.send chat "Your account access has been restricted."], Except.ok 200⟩
              else Sum.inr ("main_menu", o2)
            else Sum.inr (cmd0, o2)
          match startStage with
          | Sum.inl r => r
          | Sum.inr (cmd1, o3) =>
              if cmd0 == "/start" && cmd1 ≠ "main_menu" then
                ⟨st2, o3, Except.ok 200⟩
              else
                -- status gates for non-admin users (lines 1528-1540)
                if !isAdm && status == "pending_approval" then
                  ⟨st2, o3 ++
                    (if cmd1 ≠ "" && cmd1 ≠ "/start" then [Out.send chat (pendingNoticeText uid)] else []),
                    Except.ok 200⟩
                else if !isAdm && status == "banned" then
                  ⟨st2, o3 ++
                    (if cmd1 ≠ "" && cmd1 ≠ "/start" then [Out.send chat "Your account access has been restricted."] else []),
                    Except.ok 200⟩
                else
                  -- image processing (lines 1543-1639)
                  let (imgInfo, rejectOuts) := detectImage upd chat
                  let o4 := o3 ++ rejectOuts
                  match imgInfo with
                  | some _ =>
                      let o5 := o4 ++ [Out.send chat "Got your image! Analyzing with Gemini Vision..."]
                      (match img with
                       | Except.error e =>
                           ⟨st2, o5 ++ [Out.send chat (imageExceptText e)], Except.ok 200⟩
                       | Except.ok llmDict =>
                           let (st3, msgs) :=
                             process_image_success st2 uid llmDict clk.today clk.now
                           match msgs with
                           | Except.ok ms =>
                               ⟨st3, o5 ++ ms.map (Out.send chat), Except.ok 200⟩
                           | Except.error e =>
                               ⟨st3, o5 ++ [Out.send chat (imageExceptText e)], Except.ok 200⟩)
                  | none =>
                      -- the two sequential user handler chains (1646-1831)
                      match userChain1 ctx st2 o4 chat uid cmd1 upd with
                      | ChainRes.raised st' outs' e => ⟨st', outs', Except.error e⟩
                      | ChainRes.ok st5 o5 =>
                          match userChain2 ctx clk st5 o5 chat uid cmd1 args fullArg textPayload upd with
                          | ChainRes.raised st' outs' e => ⟨st', outs', Except.error e⟩
                          | ChainRes.ok st6 o6 => ⟨st6, o6, Except.ok 200⟩

/-
  Concrete fixtures used by the claim theorems.
-/

/-- A configured admin identity "1". -/
def exCtx : Ctx := { adminId := some "1" }

/-- A fixed invocation clock: 2024-06-15, server time 100. -/
def exClock : Clock := { date := ⟨2024, 6, 15⟩, now := 100 }

/-- An approved profile for a given user id. -/
def approvedProfile (u : String) : UserProfile :=
  { telegramUserId := some u
    groupId := none
    status := some "approved"
    requestedAt := some (TS.at 1)
    createdAt := some (TS.at 1) }

/-- Oracle for invocations that carry no image (never consulted). -/
def unusedOracle : Except PyExc Dict := Except.error (PyExc.generic "unused")

/-- Store with one approved user "7" and no receipts. -/
def c1State : FS := { profiles := [("7", approvedProfile "7")] }

/-- The text command /deletereceipts from approved user "7". -/
def c1Update : TgUpdate :=
  { message := some { chatId := "7", fromUser := "7", text := some "/deletereceipts" } }

/-- A stored receipt uploaded by "u1", personal scope. -/
def receiptByU1 : Dict :=
  [("store_name", JValue.jstr "Shop"),
   ("date", JValue.jstr "2024-06-10"),
   ("total_price", JValue.jnum 10),
   ("currency_code", JValue.jstr "ILS"),
   ("items", JValue.jarr []),
   ("telegramUserId", JValue.jstr "u1"),
   ("uploadTimestamp", JValue.jtime 5),
   ("lastUpdatedAt", JValue.jtime 5),
   ("isVerifiedByUser", JValue.jbool false)]

/-- Store holding that receipt plus approved users "u1" and "u2". -/
def c8StateWith : FS :=
  { profiles := [("u1", approvedProfile "u1"), ("u2", approvedProfile "u2")]
    receipts := [("r1", receiptByU1)] }

/-- The same store without the receipt. -/
def c8StateWithout : FS :=
  { profiles := [("u1", approvedProfile "u1"), ("u2", approvedProfile "u2")]
    receipts := [] }

/-- Store for the C9 counterexample: receipt "r1" uploaded by approved user
"7" so the delete-execute path passes authorization. -/
def c9State : FS :=
  { profiles := [("7", approvedProfile "7")]
    receipts := [("r1",
      [("store_name", JValue.jstr "Shop"),
       ("date", JValue.jstr "2024-06-10"),
       ("total_price", JValue.jnum 10),
       ("items", JValue.jarr []),
       ("telegramUserId", JValue.jstr "7"),
       ("uploadTimestamp", JValue.jtime 5)])] }

/-- The delete-confirmation button press for "r1". -/
def c9Update : TgUpdate :=
  { callback := some { chatId := "7", fromUser := "7", data := "del_do_r1", messageId := 9 } }

/-- Fixture for C10: admin "A" with an approved profile. -/
def c10Ctx : Ctx := { adminId := some "A" }

/-- Fixture for C10: a store holding only the admin's profile. -/
def c10State : FS := { profiles := [("A", approvedProfile "A")] }

/-- Replacement data for the C3 witness. -/
def c3X : Dict :=
  [("store_name", JValue.jstr "NewShop"),
   ("date", JValue.jstr "2024-06-11"),
   ("total_price", JValue.jnum 20),
   ("currency_code", JValue.jstr "ILS"),
   ("items", JValue.jarr [])]

/-- The currency label the aggregation loop settles on: the first truthy
currency_code among the counted receipts, starting from the loop's initial
empty label. -/
def firstCcyFrom (c : JValue) (docs : List Dict) : JValue :=
  docs.foldl (fun acc d =>
    if acc.truthy then acc else pyGetD d "currency_code" (JValue.jstr "")) c

/-- Store for the C5 witness: the spec's example receipts with totals 10,
"bad" and 5.5 on consecutive June days, personal scope of user "u9". -/
def c5State : FS :=
  { profiles := [("u9", approvedProfile "u9")]
    receipts :=
      [("a", [("telegramUserId", JValue.jstr "u9"),
              ("date", JValue.jstr "2024-06-01"),
              ("total_price", JValue.jnum 10)]),
       ("b", [("telegramUserId", JValue.jstr "u9"),
              ("date", JValue.jstr "2024-06-02"),
              ("total_price", JValue.jstr "bad")]),
       ("c", [("telegramUserId", JValue.jstr "u9"),
              ("date", JValue.jstr "2024-06-03"),
              ("total_price", JValue.jnum (11 / 2))])] }

/-- A group-membership operation: an admin join, a user leave, or an admin
removal — the operation alphabet over which the membership invariants
quantify. -/
inductive GOp where
  | join (uid gid : String) (now : Nat)
  | leave (uid : String) (now : Nat)
  | remove (uid gid : String) (now : Nat)

/-- State effect of one membership operation (the reply text is dropped). -/
def applyGOp (ctx : Ctx) (st : FS) : GOp → FS
  | GOp.join uid gid now => (admin_add_user_to_group st uid gid now).2
  | GOp.leave uid now => (user_leave_group ctx st uid now).2
  | GOp.remove uid gid now => (admin_remove_user_from_group st uid gid now).2

/-- State effect of a sequence of membership operations, applied in order. -/
def applyGOps (ctx : Ctx) (st : FS) (ops : List GOp) : FS :=
  ops.foldl (applyGOp ctx) st

/-- Every stored group document carries a duplicate-free member list. -/
def GroupsNodup (st : FS) : Prop :=
  ∀ gid g, alGet st.groups gid = some g → g.memberUserIds.Nodup

/-- An approved profile already belonging to a group. -/
def memberProfile (u gid : String) : UserProfile :=
  { approvedProfile u with groupId := some gid }

/-- Store for the C6 witness: a two-member group plus a groupless third
approved user. -/
def c6State : FS :=
  { profiles := [("m1", memberProfile "m1" "g1"),
                 ("m2", memberProfile "m2" "g1"),
                 ("m3", approvedProfile "m3")]
    groups := [("g1", { groupName := "G", ownerId := "1", createdAt := TS.at 1,
                        memberUserIds := ["m1", "m2"] })] }

/-
  Supporting lemmas about the store and dictionary primitives.
-/

theorem alGet_alSet_self {α : Type} (l : List (String × α)) (k : String)
    (v : α) : alGet (alSet l k v) k = some v := by
  induction l with
  | nil => simp [alSet, alGet]
  | cons hd tl ih =>
      obtain ⟨k', v'⟩ := hd
      by_cases h : k' = k
      · simp [alSet, alGet, h]
      · simp [alSet, alGet, h, ih]

theorem alGet_alSet_ne {α : Type} (l : List (String × α)) (k k' : String)
    (v : α) (h : k' ≠ k) : alGet (alSet l k v) k' = alGet l k' := by
  induction l with
  | nil => simp [alSet, alGet, Ne.symm h]
  | cons hd tl ih =>
      obtain ⟨k₀, v₀⟩ := hd
      by_cases h₀ : k₀ = k
      · subst h₀
        simp [alSet, alGet, Ne.symm h]
      · simp only [alSet, beq_iff_eq, h₀, if_false, alGet]
        by_cases h₁ : k₀ = k'
        · simp [h₁]
        · simp [h₁, ih]

theorem alGet_alDel_self {α : Type} (l : List (String × α)) (k : String) :
    alGet (alDel l k) k = none := by
  induction l with
  | nil => rfl
  | cons hd tl ih =>
      obtain ⟨k₀, v₀⟩ := hd
      simp only [alDel, List.filter_cons, ne_eq, decide_not] at ih ⊢
      by_cases h₀ : k₀ = k
      · simp [h₀, ih]
      · simp [h₀, alGet, ih]

theorem alGet_alDel_ne {α : Type} (l : List (String × α)) (k k' : String)
    (h : k' ≠ k) : alGet (alDel l k) k' = alGet l k' := by
  induction l with
  | nil => rfl
  | cons hd tl ih =>
      obtain ⟨k₀, v₀⟩ := hd
      simp only [alDel, List.filter_cons, ne_eq, decide_not] at ih ⊢
      by_cases h₀ : k₀ = k
      · subst h₀
        simp [alGet, Ne.symm h, ih]
      · by_cases h₁ : k₀ = k'
        · simp [h₀, h₁, h, alGet]
        · simp [h₀, h₁, alGet, ih]

theorem dictGet_dictSet_self (d : Dict) (k : String) (v : JValue) :
    dictGet (dictSet d k v) k = some v := by
  induction d with
  | nil => simp [dictSet, dictGet]
  | cons hd tl ih =>
      obtain ⟨k', v'⟩ := hd
      by_cases h : k' = k
      · simp [dictSet, dictGet, h]
      · simp [dictSet, dictGet, h, ih]

theorem dictGet_dictSet_ne (d : Dict) (k k' : String) (v : JValue)
    (h : k' ≠ k) : dictGet (dictSet d k v) k' = dictGet d k' := by
  induction d with
  | nil => simp [dictSet, dictGet, Ne.symm h]
  | cons hd tl ih =>
      obtain ⟨k₀, v₀⟩ := hd
      by_cases h₀ : k₀ = k
      · subst h₀
        simp [dictSet, dictGet, Ne.symm h]
      · simp only [dictSet, beq_iff_eq, h₀, if_false, dictGet]
        by_cases h₁ : k₀ = k'
        · simp [h₁]
        · simp [h₁, ih]

theorem dictGet_dictPop_self (d : Dict) (k : String) :
    dictGet (dictPop d k) k = none := by
  induction d with
  | nil => rfl
  | cons hd tl ih =>
      obtain ⟨k₀, v₀⟩ := hd
      simp only [dictPop, List.filter_cons, ne_eq, decide_not] at ih ⊢
      by_cases h₀ : k₀ = k
      · simp [h₀, ih]
      · simp [h₀, dictGet, ih]

theorem dictGet_dictPop_ne (d : Dict) (k k' : String) (h : k' ≠ k) :
    dictGet (dictPop d k) k' = dictGet d k' := by
  induction d with
  | nil => rfl
  | cons hd tl ih =>
      obtain ⟨k₀, v₀⟩ := hd
      simp only [dictPop, List.filter_cons, ne_eq, decide_not] at ih ⊢
      by_cases h₀ : k₀ = k
      · subst h₀
        simp [dictGet, Ne.symm h, ih]
      · by_cases h₁ : k₀ = k'
        · simp [h₀, h₁, h, dictGet]
        · simp [h₀, h₁, dictGet, ih]

theorem dictGet_resolveDict (now : Nat) (d : Dict) (k : String) :
    dictGet (resolveDict now d) k = (dictGet d k).map (resolveJ now) := by
  induction d with
  | nil => simp [resolveDict, dictGet]
  | cons hd tl ih =>
      obtain ⟨k₀, v₀⟩ := hd
      by_cases h : k₀ = k
      · simp [resolveDict, dictGet, h]
      · simpa [resolveDict, dictGet, h] using ih

theorem resolveJ_of_ne_jts (now : Nat) (v : JValue) (h : v ≠ JValue.jts) :
    resolveJ now v = v := by
  cases v <;> simp [resolveJ] at h ⊢

/-- C1: the dispatcher is claimed to produce exactly one outbound reply per
event, with the first matching handler winning and returning immediately —
in particular exactly one receipt-selection message for /deletereceipts
from an approved user.  The code violates this: the /deletereceipts text
command matches the handler at line 1646 and then, with no return between
the two sequential if-chains, matches the duplicate handler at line 1799
again, so the receipt-selection message is sent twice for one event. -/
theorem C1_deletereceipts_double_reply :
    (telegram_webhook exCtx exClock unusedOracle c1State c1Update).out =
      [Out.send "7" "No recent receipts found (personal) to delete.",
       Out.send "7" "No recent receipts found (personal) to delete."] ∧
    (telegram_webhook exCtx exClock unusedOracle c1State c1Update).resp =
      Except.ok 200 :=
  ⟨rfl, rfl⟩

/-- C8, counterexample: the unauthorized actor "u2" deleting "r1" receives
different messages depending on whether the receipt exists ("not
authorized" versus "no longer exists"), so the two runs are
distinguishable and existence is leaked, contrary to the claim. -/
theorem C8_existence_leak_counterexample :
    (delete_receipt_from_firestore exCtx c8StateWith "u2" "r1").1 ≠
    (delete_receipt_from_firestore exCtx c8StateWithout "u2" "r1").1 := by
  decide

/-- C8, amended: on an existing receipt every unauthorized delete draws one
fixed denial wording, but on a missing receipt a distinct not-found message
naming the id is returned; the denial is fixed per case, not across the
existence boundary. -/
theorem C8_denial_wording (ctx : Ctx) (st : FS) (u docId : String) :
    (∀ orig, alGet st.receipts docId = some orig →
      is_user_admin ctx u = false →
      JValue.beq (pyGetN orig "telegramUserId") (JValue.jstr u) = false →
      (delete_receipt_from_firestore ctx st u docId).1 =
        "Error: You are not authorized to delete receipt Ref: `" ++ docId ++
          "`. Only the uploader or admin can delete.") ∧
    (alGet st.receipts docId = none →
      (delete_receipt_from_firestore ctx st u docId).1 =
        "Error: Receipt Ref: `" ++ docId ++ "` no longer exists.") := by
  constructor
  · intro orig hex hadm hupl
    simp [delete_receipt_from_firestore, hex, hadm, hupl]
  · intro hnone
    simp [delete_receipt_from_firestore, hnone]

/-- C8 witness: the amended wording theorem at the concrete fixtures. -/
theorem C8_denial_wording_witness :
    (delete_receipt_from_firestore exCtx c8StateWith "u2" "r1").1 =
      "Error: You are not authorized to delete receipt Ref: `r1`. Only the uploader or admin can delete." ∧
    (delete_receipt_from_firestore exCtx c8StateWithout "u2" "r1").1 =
      "Error: Receipt Ref: `r1` no longer exists." := by
  refine ⟨(C8_denial_wording exCtx c8StateWith "u2" "r1").1 receiptByU1 rfl rfl rfl, ?_⟩
  exact (C8_denial_wording exCtx c8StateWithout "u2" "r1").2 rfl

/-- C9, counterexample: the delete-execute callback deletes the receipt and
then calls the undefined name edit_tg_message, so a NameError escapes the
handler uncaught and the channel receives no reply at all — there is no
outermost catch-all in the dispatch core (only the image pipeline has
one). -/
theorem C9_uncaught_exception_counterexample :
    (telegram_webhook exCtx exClock unusedOracle c9State c9Update).resp =
      Except.error (PyExc.nameError "edit_tg_message") ∧
    (telegram_webhook exCtx exClock unusedOracle c9State c9Update).out = [] :=
  ⟨rfl, rfl⟩

/-- C9, amended: the catch-all the claim describes exists only around the
image-processing pipeline.  There, every exception of the external
fetch-and-extract calls — whatever its kind — is caught and converted to a
user-visible error reply, and the handler returns 200. -/
theorem C9_image_pipeline_always_replies (ctx : Ctx) (clk : Clock) (st : FS)
    (chat uid fid : String) (mid : Nat) (e : PyExc) (p : UserProfile)
    (hchat : chat ≠ "") (huid : uid ≠ "")
    (hp : alGet st.profiles uid = some p)
    (hst : p.status = some "approved") :
    (telegram_webhook ctx clk (Except.error e) st
      { message := some { chatId := chat, fromUser := uid, text := none,
                          photo := some fid, document := none, messageId := mid } }).resp =
      Except.ok 200 ∧
    (telegram_webhook ctx clk (Except.error e) st
      { message := some { chatId := chat, fromUser := uid, text := none,
                          photo := some fid, document := none, messageId := mid } }).out =
      [Out.send chat "Got your image! Analyzing with Gemini Vision...",
       Out.send chat (imageExceptText e)] := by
  have hres : resolveEvent
      { message := some { chatId := chat, fromUser := uid, text := none,
                          photo := some fid, document := none, messageId := mid } } =
      some (chat, uid, none) := by
    simp [resolveEvent, hchat, huid]
  have hens : ensure_user_profile_exists ctx st uid (some chat) clk.now = (p, st, []) := by
    simp [ensure_user_profile_exists, get_user_profile, hp, hst]
  by_cases hA : is_user_admin ctx uid
  · constructor <;>
      simp [telegram_webhook, hres, hens, hst, parseCommandAction, hA,
        adminDispatch, adminInner, detectImage]
  · constructor <;>
      simp [telegram_webhook, hres, hens, hst, parseCommandAction, hA,
        adminDispatch, adminInner, detectImage]

/-- C9 witness: the amended theorem at a concrete extraction timeout. -/
theorem C9_image_pipeline_always_replies_witness :
    (telegram_webhook exCtx exClock
      (Except.error (PyExc.valueError "LLM API request timed out. Please try again later."))
      c1State
      { message := some { chatId := "7", fromUser := "7", text := none,
                          photo := some "f1", document := none, messageId := 3 } }).out =
      [Out.send "7" "Got your image! Analyzing with Gemini Vision...",
       Out.send "7" "Receipt Processing Error: LLM API request timed out. Please try again later."] := by
  have h := C9_image_pipeline_always_replies exCtx exClock c1State "7" "7" "f1" 3
    (PyExc.valueError "LLM API request timed out. Please try again later.")
    (approvedProfile "7") (by decide) (by decide) rfl rfl
  exact h.2

/-- Membership survives first-occurrence deduplication (helper). -/
theorem mem_of_mem_dedupFirst (l : List String) (x : String) :
    x ∈ dedupFirst l → x ∈ l := by
  have aux : ∀ (l : List String) (acc : List String),
      x ∈ l.foldl (fun a y => if y ∈ a then a else a ++ [y]) acc →
      x ∈ acc ∨ x ∈ l := by
    intro l
    induction l with
    | nil => intro acc h; exact Or.inl h
    | cons hd tl ih =>
        intro acc h
        by_cases hmem : hd ∈ acc
        · simp only [List.foldl_cons, if_pos hmem] at h
          rcases ih acc h with h' | h'
          · exact Or.inl h'
          · exact Or.inr (List.mem_cons_of_mem hd h')
        · simp only [List.foldl_cons, if_neg hmem] at h
          rcases ih (acc ++ [hd]) h with h' | h'
          · rcases List.mem_append.mp h' with h'' | h''
            · exact Or.inl h''
            · simp at h''
              exact Or.inr (h'' ▸ List.mem_cons_self hd tl)
          · exact Or.inr (List.mem_cons_of_mem hd h')
  intro h
  rcases aux l [] h with h' | h'
  · simp at h'
  · exact h'

/-- First-occurrence deduplication produces a duplicate-free list
(helper). -/
theorem dedupFirst_nodup (l : List String) : (dedupFirst l).Nodup := by
  have aux : ∀ (l : List String) (acc : List String), acc.Nodup →
      (l.foldl (fun a y => if y ∈ a then a else a ++ [y]) acc).Nodup := by
    intro l
    induction l with
    | nil => intro acc h; exact h
    | cons hd tl ih =>
        intro acc h
        by_cases hmem : hd ∈ acc
        · simpa [List.foldl_cons, if_pos hmem] using ih acc h
        · have : (acc ++ [hd]).Nodup := by
            simp [List.nodup_append, h, hmem]
          simpa [List.foldl_cons, if_neg hmem] using ih (acc ++ [hd]) this
  exact aux l [] List.nodup_nil

/-- The profile-update loop of group creation touches only the listed
members' profiles (helper). -/
theorem foldl_setProfileGroup_frame (members : List String) (st : FS)
    (gid : String) (now : Nat) (v : String) (hv : v ∉ members) :
    alGet ((members.foldl (fun s mid => setProfileGroup s mid gid now) st)).profiles v =
      alGet st.profiles v := by
  induction members generalizing st with
  | nil => rfl
  | cons hd tl ih =>
      have hvh : v ≠ hd := fun h => hv (h ▸ List.mem_cons_self hd tl)
      have hvt : v ∉ tl := fun h => hv (List.mem_cons_of_mem hd h)
      simp only [List.foldl_cons]
      rw [ih _ hvt]
      simp [setProfileGroup, alGet_alSet_ne _ _ _ _ hvh]

/-- The profile-update loop of group creation never touches the groups
collection (helper). -/
theorem foldl_setProfileGroup_groups (members : List String) (st : FS)
    (gid : String) (now : Nat) :
    ((members.foldl (fun s mid => setProfileGroup s mid gid now) st)).groups =
      st.groups := by
  induction members generalizing st with
  | nil => rfl
  | cons hd tl ih =>
      simp only [List.foldl_cons]
      rw [ih]
      rfl

/-- Every filtered initial member is a stripped input id (helper). -/
theorem mem_admin_filter_initial_members (st : FS) (ids : List String)
    (v : String) (hv : v ∈ admin_filter_initial_members st ids) :
    ∃ m ∈ ids, v = pyStrip m := by
  have h1 : v ∈ ids.map pyStrip := (List.mem_filter.mp hv).1
  rcases List.mem_map.mp h1 with ⟨m, hm, he⟩
  exact ⟨m, hm, he.symm⟩

/-- The member list group creation actually uses, for an admin actor. -/
theorem admin_members_eq (st : FS) (ids : List String) :
    (if ids.isEmpty then ([] : List String)
     else admin_filter_initial_members st ids) =
      admin_filter_initial_members st ids := by
  cases ids with
  | nil => rfl
  | cons hd tl => rfl

/-- C10, counterexample: when the admin lists their own id among the
initial members, the member filter accepts it (the admin profile exists
and is approved), so the admin is added to memberUserIds and the admin's
own profile has its groupId set — contradicting the claim that the admin's
profile is never modified and that the admin is recorded only as
ownerId. -/
theorem C10_admin_self_member_counterexample :
    alGet (create_group_in_firestore c10Ctx c10State "A" "Fam" ["A"] 100).2.2.profiles "A" ≠
      some (approvedProfile "A") ∧
    ∃ g, alGet (create_group_in_firestore c10Ctx c10State "A" "Fam" ["A"] 100).2.2.groups "G0" =
        some g ∧ "A" ∈ g.memberUserIds := by
  constructor
  · decide
  · exact ⟨_, rfl, by decide⟩

/-- C10, amended: provided the admin does not list themself among the
(cleaned) initial member ids, the admin's profile is never modified, the
admin is recorded only as ownerId and is not in memberUserIds, and profile
groupId updates are applied exclusively to the filtered initial members
(existing, approved users). -/
theorem C10_admin_create_group_frame (ctx : Ctx) (st : FS) (u name : String)
    (ids : List String) (now : Nat)
    (hadm : is_user_admin ctx u = true)
    (hname : pyStrip name ≠ "")
    (hself : ∀ m ∈ ids, pyStrip m ≠ u) :
    alGet (create_group_in_firestore ctx st u name ids now).2.2.profiles u =
      alGet st.profiles u ∧
    (create_group_in_firestore ctx st u name ids now).1 =
      some ("G" ++ toString st.nextId) ∧
    (∃ g, alGet (create_group_in_firestore ctx st u name ids now).2.2.groups
        ("G" ++ toString st.nextId) = some g ∧
      g.ownerId = u ∧ u ∉ g.memberUserIds ∧
      g.memberUserIds = dedupFirst (admin_filter_initial_members st ids)) ∧
    (∀ v, v ∉ admin_filter_initial_members st ids →
      alGet (create_group_in_firestore ctx st u name ids now).2.2.profiles v =
        alGet st.profiles v) := by
  have hu_not_mem : u ∉ admin_filter_initial_members st ids := by
    intro hmem
    rcases mem_admin_filter_initial_members st ids u hmem with ⟨m, hm, he⟩
    exact hself m hm he.symm
  have hstate : (create_group_in_firestore ctx st u name ids now).2.2 =
      (admin_filter_initial_members st ids).foldl
        (fun s mid => setProfileGroup s mid ("G" ++ toString st.nextId) now)
        { st with
          groups := alSet st.groups ("G" ++ toString st.nextId)
            { groupName := pyStrip name
              ownerId := u
              createdAt := TS.at now
              memberUserIds := dedupFirst (admin_filter_initial_members st ids) }
          nextId := st.nextId + 1 } := by
    simp only [create_group_in_firestore, beq_iff_eq, hname, if_false, hadm,
      Bool.not_true, Bool.false_and, Bool.false_eq_true, if_false,
      admin_members_eq, if_true]
  have hgid : (create_group_in_firestore ctx st u name ids now).1 =
      some ("G" ++ toString st.nextId) := by
    simp only [create_group_in_firestore, beq_iff_eq, hname, if_false, hadm,
      Bool.not_true, Bool.false_and, Bool.false_eq_true, if_false,
      admin_members_eq, if_true]
  refine ⟨?_, hgid,
    ⟨{ groupName := pyStrip name
       ownerId := u
       createdAt := TS.at now
       memberUserIds := dedupFirst (admin_filter_initial_members st ids) },
     ?_, rfl, ?_, rfl⟩, ?_⟩
  · rw [hstate]
    exact foldl_setProfileGroup_frame _ _ _ _ _ hu_not_mem
  · rw [hstate, foldl_setProfileGroup_groups]
    exact alGet_alSet_self _ _ _
  · intro hmem
    exact hu_not_mem (mem_of_mem_dedupFirst _ _ hmem)
  · intro v hv
    rw [hstate]
    exact foldl_setProfileGroup_frame _ _ _ _ _ hv

/-- C10 witness: the amended frame theorem at concrete inputs (admin "A"
creating a group for approved member "B"). -/
theorem C10_admin_create_group_frame_witness :
    alGet (create_group_in_firestore c10Ctx
        { profiles := [("A", approvedProfile "A"), ("B", approvedProfile "B")] }
        "A" "Fam" ["B"] 100).2.2.profiles "A" =
      some (approvedProfile "A") := by
  have h := C10_admin_create_group_frame c10Ctx
    { profiles := [("A", approvedProfile "A"), ("B", approvedProfile "B")] }
    "A" "Fam" ["B"] 100 (by decide) (by decide)
    (by intro m hm; simp at hm; subst hm; decide)
  rw [h.1]
  rfl

/-- C7: calling ensure_user_profile_exists twice in a row with no status
mutation in between is idempotent: the second call performs no store write
and sends nothing, it returns exactly the profile stored by the first call,
the two returned profiles agree on identity, status and group (they can
differ only in the server-assigned timestamp fields, which the first call
returns as unresolved sentinels), and at most one pending-approval
notification is produced across both calls. -/
theorem C7_ensure_profile_idempotent (ctx : Ctx) (st : FS) (u : String)
    (chat : Option String) (now1 now2 : Nat) :
    (ensure_user_profile_exists ctx
        (ensure_user_profile_exists ctx st u chat now1).2.1 u chat now2).2.1 =
      (ensure_user_profile_exists ctx st u chat now1).2.1 ∧
    (ensure_user_profile_exists ctx
        (ensure_user_profile_exists ctx st u chat now1).2.1 u chat now2).2.2 = [] ∧
    (ensure_user_profile_exists ctx st u chat now1).2.2.length ≤ 1 ∧
    (ensure_user_profile_exists ctx
        (ensure_user_profile_exists ctx st u chat now1).2.1 u chat now2).1.status =
      (ensure_user_profile_exists ctx st u chat now1).1.status ∧
    (ensure_user_profile_exists ctx
        (ensure_user_profile_exists ctx st u chat now1).2.1 u chat now2).1.groupId =
      (ensure_user_profile_exists ctx st u chat now1).1.groupId ∧
    (ensure_user_profile_exists ctx
        (ensure_user_profile_exists ctx st u chat now1).2.1 u chat now2).1.telegramUserId =
      (ensure_user_profile_exists ctx st u chat now1).1.telegramUserId ∧
    get_user_profile (ensure_user_profile_exists ctx st u chat now1).2.1 u =
      some (ensure_user_profile_exists ctx
        (ensure_user_profile_exists ctx st u chat now1).2.1 u chat now2).1 := by
  cases hp : alGet st.profiles u with
  | none =>
      by_cases hA : is_user_admin ctx u
      · refine ⟨?_, ?_, ?_, ?_, ?_, ?_, ?_⟩ <;>
          simp [ensure_user_profile_exists, hp, hA, resolveProfile,
            get_user_profile, alGet_alSet_self]
      · cases chat with
        | none =>
            refine ⟨?_, ?_, ?_, ?_, ?_, ?_, ?_⟩ <;>
              simp [ensure_user_profile_exists, hp, hA, resolveProfile,
                get_user_profile, alGet_alSet_self]
        | some c =>
            refine ⟨?_, ?_, ?_, ?_, ?_, ?_, ?_⟩ <;>
              simp [ensure_user_profile_exists, hp, hA, resolveProfile,
                get_user_profile, alGet_alSet_self]
  | some p =>
      cases hs : p.status with
      | none =>
          refine ⟨?_, ?_, ?_, ?_, ?_, ?_, ?_⟩ <;>
            simp [ensure_user_profile_exists, hp, hs, get_user_profile,
              alGet_alSet_self]
      | some sv =>
          refine ⟨?_, ?_, ?_, ?_, ?_, ?_, ?_⟩ <;>
            simp [ensure_user_profile_exists, hp, hs, get_user_profile,
              alGet_alSet_self]

/-- C4: for every successfully extracted receipt draft, whatever date the
extractor proposed, the persisted receipt document carries the current
processing date: the draft's date key is popped and replaced by today's
date before the save, so the stored document's date field is exactly the
processing date. -/
theorem C4_upload_date_discipline (st : FS) (u : String) (llmDict : Dict)
    (today : String) (now : Nat) (proposed : JValue)
    (hprop : dictGet llmDict "date" = some proposed) :
    (alGet (process_image_success st u llmDict today now).1.receipts
        ("R" ++ toString st.nextId)).map (fun stored => dictGet stored "date") =
      some (some (JValue.jstr today)) := by
  have hdate : ∀ d : Dict,
      dictGet (resolveDict now (dictSet (dictSet (dictSet d "uploadTimestamp"
          JValue.jts) "lastUpdatedAt" JValue.jts) "isVerifiedByUser"
          (JValue.jbool false))) "date" = (dictGet d "date").map (resolveJ now) := by
    intro d
    rw [dictGet_resolveDict,
      dictGet_dictSet_ne _ _ _ _ (by decide),
      dictGet_dictSet_ne _ _ _ _ (by decide),
      dictGet_dictSet_ne _ _ _ _ (by decide)]
  have hd2 : ∀ d : Dict, dictGet (dictSet d "date" (JValue.jstr today)) "date" =
      some (JValue.jstr today) := fun d => dictGet_dictSet_self d _ _
  cases hgid : get_user_group_id st u with
  | none =>
      simp only [process_image_success, hgid, alGet_alSet_self, Option.map_some']
      rw [hdate, dictGet_dictPop_ne _ _ _ (by decide),
        dictGet_dictSet_ne _ _ _ _ (by decide), hd2]
      rfl
  | some g =>
      by_cases hg : g ≠ ""
      · simp only [process_image_success, hgid, if_pos hg, alGet_alSet_self,
          Option.map_some']
        rw [hdate, dictGet_dictSet_ne _ _ _ _ (by decide),
          dictGet_dictSet_ne _ _ _ _ (by decide), hd2]
        rfl
      · simp only [process_image_success, hgid, if_neg hg, alGet_alSet_self,
          Option.map_some']
        rw [hdate, dictGet_dictPop_ne _ _ _ (by decide),
          dictGet_dictSet_ne _ _ _ _ (by decide), hd2]
        rfl

/-- C4 witness: an extractor draft proposing 2023-01-01 while the clock
says 2024-06-15 is persisted with date 2024-06-15. -/
theorem C4_upload_date_discipline_witness :
    (alGet (process_image_success c1State "7"
        [("store_name", JValue.jstr "Shop"), ("date", JValue.jstr "2023-01-01"),
         ("total_price", JValue.jnum 42), ("items", JValue.jarr [])]
        "2024-06-15" 100).1.receipts "R0").map
      (fun stored => dictGet stored "date") =
      some (some (JValue.jstr "2024-06-15")) :=
  C4_upload_date_discipline c1State "7"
    [("store_name", JValue.jstr "Shop"), ("date", JValue.jstr "2023-01-01"),
     ("total_price", JValue.jnum 42), ("items", JValue.jarr [])]
    "2024-06-15" 100 (JValue.jstr "2023-01-01") rfl

/-- C2: for an existing receipt and an acting user who is neither the
uploader, nor the admin, nor (for edit) a member of the receipt's recorded
group, both edit variants and delete always fail with a denial and the
store is not mutated: no write happens before the authorization check
passes.  (An unapproved actor is denied even earlier by the approval gate;
both denial wordings are listed.)  For the simple-text edit the call
targets this receipt when its text parses to this reference id. -/
theorem C2_unauthorized_edit_delete_no_mutation (ctx : Ctx) (st : FS)
    (u docId : String) (orig : Dict)
    (hex : alGet st.receipts docId = some orig)
    (hadm : is_user_admin ctx u = false)
    (hupl : JValue.beq (pyGetN orig "telegramUserId") (JValue.jstr u) = false)
    (hgrp : user_in_receipt_group st u orig = false) :
    (∀ parsed today now,
      (handle_edit_receipt_command ctx st u docId parsed today now).2 = st) ∧
    (∀ v today now,
      (handle_edit_receipt_command ctx st u docId (Except.ok v) today now).1 =
          "Your account is not approved for this action." ∨
      (handle_edit_receipt_command ctx st u docId (Except.ok v) today now).1 =
          "Error: You are not authorized to edit receipt `" ++ docId ++ "`.") ∧
    (∀ text hd il errs today now,
      parse_edited_receipt_text text = (some docId, hd, il, errs) →
      docId ≠ "" →
      (handle_simple_edit_receipt_command ctx st u text today now).2 = st ∧
      (¬(errs ≠ [] ∧ il = []) →
        (handle_simple_edit_receipt_command ctx st u text today now).1 =
            "Your account is not approved for this action." ∨
        (handle_simple_edit_receipt_command ctx st u text today now).1 =
            "Error: You are not authorized to edit receipt `" ++ docId ++ "`.")) ∧
    (delete_receipt_from_firestore ctx st u docId).2 = st ∧
    (delete_receipt_from_firestore ctx st u docId).1 =
      "Error: You are not authorized to delete receipt Ref: `" ++ docId ++
        "`. Only the uploader or admin can delete." := by
  have hauth : edit_authorized ctx st u orig = false := by
    simp [edit_authorized, hadm, hupl, hgrp]
  refine ⟨?_, ?_, ?_, ?_, ?_⟩
  · intro parsed today now
    by_cases happ : is_user_approved ctx st u
    · cases parsed with
      | error jemsg => simp [handle_edit_receipt_command, happ]
      | ok v =>
          cases v <;>
            simp [handle_edit_receipt_command, happ, hex, hauth]
    · simp [handle_edit_receipt_command, happ]
  · intro v today now
    by_cases happ : is_user_approved ctx st u
    · right
      cases v <;> simp [handle_edit_receipt_command, happ, hex, hauth]
    · left
      simp [handle_edit_receipt_command, happ]
  · intro text hd il errs today now hparse hdoc
    by_cases happ : is_user_approved ctx st u
    · by_cases hhdr : !errs.isEmpty && il.isEmpty
      · constructor
        · simp [handle_simple_edit_receipt_command, happ, hparse, hdoc, hhdr]
        · intro hno
          exfalso
          rcases Bool.and_eq_true_iff.mp hhdr with ⟨h1, h2⟩
          exact hno ⟨by simpa using h1, by simpa using h2⟩
      · constructor
        · simp [handle_simple_edit_receipt_command, happ, hparse, hdoc, hhdr,
            hex, hauth]
        · intro _
          right
          simp [handle_simple_edit_receipt_command, happ, hparse, hdoc, hhdr,
            hex, hauth]
    · constructor
      · simp [handle_simple_edit_receipt_command, happ]
      · intro _
        left
        simp [handle_simple_edit_receipt_command, happ]
  · simp [delete_receipt_from_firestore, hex, hadm, hupl]
  · simp [delete_receipt_from_firestore, hex, hadm, hupl]

/-- C2 witness: the theorem at the concrete unauthorized actor "u2" on the
stored receipt "r1" uploaded by "u1". -/
theorem C2_unauthorized_edit_delete_no_mutation_witness :
    (delete_receipt_from_firestore exCtx c8StateWith "u2" "r1").2 = c8StateWith ∧
    (handle_edit_receipt_command exCtx c8StateWith "u2" "r1"
        (Except.ok (JValue.jobj [])) "2024-06-15" 100).2 = c8StateWith ∧
    (handle_edit_receipt_command exCtx c8StateWith "u2" "r1"
        (Except.ok (JValue.jobj [])) "2024-06-15" 100).1 =
      "Error: You are not authorized to edit receipt `r1`." := by
  have h := C2_unauthorized_edit_delete_no_mutation exCtx c8StateWith "u2" "r1"
    receiptByU1 rfl rfl (by decide) (by decide)
  refine ⟨h.2.2.2.1, h.1 (Except.ok (JValue.jobj [])) "2024-06-15" 100, ?_⟩
  rcases h.2.1 (JValue.jobj []) "2024-06-15" 100 with hmsg | hmsg
  · exact absurd hmsg (by decide)
  · exact hmsg

/-- C3: an authorized edit with replacement data X (a JSON object carrying
a date and an item list, as a replacement receipt does) stores a document
equal to X on every field except: telegramUserId and uploadTimestamp are
taken unchanged from the pre-edit document, the original groupId is kept
iff it was present (and non-null) before, isVerifiedByUser is set to true,
editedBy is set to the acting user, and lastUpdatedAt is refreshed to the
write time.  `hres` says the pre-edit document is a stored (hence
timestamp-resolved) document; the per-key sentinel condition says the same
of X, which json.loads guarantees. -/
theorem C3_edit_roundtrip (ctx : Ctx) (st : FS) (u docId : String)
    (orig X : Dict) (today : String) (now : Nat)
    (hex : alGet st.receipts docId = some orig)
    (happ : is_user_approved ctx st u = true)
    (hauth : edit_authorized ctx st u orig = true)
    (hdate : (dictGet X "date").isSome)
    (hitems : ∃ xs, dictGet X "items" = some (JValue.jarr xs))
    (hres : ∀ k, dictGet orig k ≠ some JValue.jts) :
    (handle_edit_receipt_command ctx st u docId
        (Except.ok (JValue.jobj X)) today now).1 =
      "✅ Receipt `" ++ docId ++ "` updated successfully!" ∧
    ∃ stored,
      (handle_edit_receipt_command ctx st u docId
          (Except.ok (JValue.jobj X)) today now).2.receipts =
        alSet st.receipts docId stored ∧
      (∀ k, k ∉ (["telegramUserId", "uploadTimestamp", "groupId",
          "lastUpdatedAt", "isVerifiedByUser", "editedBy"] : List String) →
        dictGet X k ≠ some JValue.jts →
        dictGet stored k = dictGet X k) ∧
      dictGet stored "telegramUserId" = some (pyGetN orig "telegramUserId") ∧
      dictGet stored "uploadTimestamp" = some (pyGetN orig "uploadTimestamp") ∧
      (∀ g, dictGet orig "groupId" = some g → g ≠ JValue.jnull →
        dictGet stored "groupId" = some g) ∧
      ((dictGet orig "groupId" = none ∨ dictGet orig "groupId" = some JValue.jnull) →
        dictGet stored "groupId" = none) ∧
      dictGet stored "isVerifiedByUser" = some (JValue.jbool true) ∧
      dictGet stored "editedBy" = some (JValue.jstr u) ∧
      dictGet stored "lastUpdatedAt" = some (JValue.jtime now) := by
  obtain ⟨xs, hx⟩ := hitems
  have hTel : pyGetN orig "telegramUserId" ≠ JValue.jts := by
    unfold pyGetN pyGetD
    cases hv : dictGet orig "telegramUserId" with
    | none => simp
    | some v =>
        simp only [Option.getD_some]
        intro hcon
        exact hres "telegramUserId" (hcon ▸ hv)
  have hUp : pyGetN orig "uploadTimestamp" ≠ JValue.jts := by
    unfold pyGetN pyGetD
    cases hv : dictGet orig "uploadTimestamp" with
    | none => simp
    | some v =>
        simp only [Option.getD_some]
        intro hcon
        exact hres "uploadTimestamp" (hcon ▸ hv)
  -- the validated replacement dict is X itself
  have hvalid :
      (if (dictGet (match dictGet X "items" with
            | some (JValue.jarr _) => X
            | _ => dictSet X "items" (JValue.jarr [])) "date").isSome then
        (match dictGet X "items" with
          | some (JValue.jarr _) => X
          | _ => dictSet X "items" (JValue.jarr []))
      else
        dictSet (match dictGet X "items" with
          | some (JValue.jarr _) => X
          | _ => dictSet X "items" (JValue.jarr []))
          "date" (pyGetD orig "date" (JValue.jstr today))) = X := by
    rw [hx]
    simp [hdate]
  -- properties of the stamped payload, parameterized over the group step
  have main : ∀ p3 : Dict,
      (∀ k, k ∉ (["telegramUserId", "uploadTimestamp", "groupId",
          "lastUpdatedAt", "isVerifiedByUser", "editedBy"] : List String) →
        dictGet p3 k =
          dictGet (dictSet (dictSet X "telegramUserId"
            (pyGetN orig "telegramUserId")) "uploadTimestamp"
            (pyGetN orig "uploadTimestamp")) k) →
      (dictGet p3 "telegramUserId" =
        dictGet (dictSet (dictSet X "telegramUserId"
          (pyGetN orig "telegramUserId")) "uploadTimestamp"
          (pyGetN orig "uploadTimestamp")) "telegramUserId") →
      (dictGet p3 "uploadTimestamp" =
        dictGet (dictSet (dictSet X "telegramUserId"
          (pyGetN orig "telegramUserId")) "uploadTimestamp"
          (pyGetN orig "uploadTimestamp")) "uploadTimestamp") →
      ∀ stored, stored = resolveDict now (dictSet (dictSet (dictSet p3
          "lastUpdatedAt" JValue.jts) "isVerifiedByUser" (JValue.jbool true))
          "editedBy" (JValue.jstr u)) →
      (∀ k, k ∉ (["telegramUserId", "uploadTimestamp", "groupId",
          "lastUpdatedAt", "isVerifiedByUser", "editedBy"] : List String) →
        dictGet X k ≠ some JValue.jts →
        dictGet stored k = dictGet X k) ∧
      dictGet stored "telegramUserId" = some (pyGetN orig "telegramUserId") ∧
      dictGet stored "uploadTimestamp" = some (pyGetN orig "uploadTimestamp") ∧
      dictGet stored "isVerifiedByUser" = some (JValue.jbool true) ∧
      dictGet stored "editedBy" = some (JValue.jstr u) ∧
      dictGet stored "lastUpdatedAt" = some (JValue.jtime now) := by
    intro p3 hgen htel hup stored hst
    subst hst
    refine ⟨?_, ?_, ?_, ?_, ?_, ?_⟩
    · intro k hk hkts
      simp only [List.mem_cons, List.mem_singleton, not_or] at hk
      obtain ⟨h1, h2, h3, h4, h5, h6⟩ := hk
      rw [dictGet_resolveDict,
        dictGet_dictSet_ne _ _ _ _ (by simpa using h6),
        dictGet_dictSet_ne _ _ _ _ (by simpa using h5),
        dictGet_dictSet_ne _ _ _ _ (by simpa using h4),
        hgen k (by simp [h1, h2, h3, h4, h5, h6]),
        dictGet_dictSet_ne _ _ _ _ h2,
        dictGet_dictSet_ne _ _ _ _ h1]
      cases hv : dictGet X k with
      | none => rfl
      | some v =>
          have : v ≠ JValue.jts := fun hc => hkts (hc ▸ hv)
          simp [resolveJ_of_ne_jts now v this]
    · rw [dictGet_resolveDict,
        dictGet_dictSet_ne _ _ _ _ (by decide),
        dictGet_dictSet_ne _ _ _ _ (by decide),
        dictGet_dictSet_ne _ _ _ _ (by decide),
        htel,
        dictGet_dictSet_ne _ _ _ _ (by decide),
        dictGet_dictSet_self]
      simp [resolveJ_of_ne_jts now _ hTel]
    · rw [dictGet_resolveDict,
        dictGet_dictSet_ne _ _ _ _ (by decide),
        dictGet_dictSet_ne _ _ _ _ (by decide),
        dictGet_dictSet_ne _ _ _ _ (by decide),
        hup,
        dictGet_dictSet_self]
      simp [resolveJ_of_ne_jts now _ hUp]
    · rw [dictGet_resolveDict,
        dictGet_dictSet_ne _ _ _ _ (by decide),
        dictGet_dictSet_self]
      rfl
    · rw [dictGet_resolveDict, dictGet_dictSet_self]
      rfl
    · rw [dictGet_resolveDict,
        dictGet_dictSet_ne _ _ _ _ (by decide),
        dictGet_dictSet_ne _ _ _ _ (by decide),
        dictGet_dictSet_self]
      rfl
  cases hg : dictGet orig "groupId" with
  | none =>
      constructor
      · simp [handle_edit_receipt_command, happ, hex, hauth, hx, hdate, hg]
      · refine ⟨resolveDict now (dictSet (dictSet (dictSet
            (dictPop (dictSet (dictSet X "telegramUserId"
              (pyGetN orig "telegramUserId")) "uploadTimestamp"
              (pyGetN orig "uploadTimestamp")) "groupId")
            "lastUpdatedAt" JValue.jts) "isVerifiedByUser" (JValue.jbool true))
            "editedBy" (JValue.jstr u)), ?_, ?_⟩
        · simp [handle_edit_receipt_command, happ, hex, hauth, hx, hdate, hg]
        · have h := main
            (dictPop (dictSet (dictSet X "telegramUserId"
              (pyGetN orig "telegramUserId")) "uploadTimestamp"
              (pyGetN orig "uploadTimestamp")) "groupId")
            (fun k hk => by
              simp only [List.mem_cons, List.mem_singleton, not_or] at hk
              exact dictGet_dictPop_ne _ _ _ hk.2.2.1)
            (dictGet_dictPop_ne _ _ _ (by decide))
            (dictGet_dictPop_ne _ _ _ (by decide))
            _ rfl
          refine ⟨h.1, h.2.1, h.2.2.1, ?_, ?_, h.2.2.2.1, h.2.2.2.2.1, h.2.2.2.2.2⟩
          · intro g hcon
            exact absurd hcon (by simp)
          · intro _
            rw [dictGet_resolveDict,
              dictGet_dictSet_ne _ _ _ _ (by decide),
              dictGet_dictSet_ne _ _ _ _ (by decide),
              dictGet_dictSet_ne _ _ _ _ (by decide),
              dictGet_dictPop_self]
            rfl
  | some g0 =>
      by_cases hnull : JValue.beq g0 JValue.jnull = true
      · have hg0 : g0 = JValue.jnull := by
          cases g0 <;> simp [JValue.beq, JValue.beqFuel] at hnull <;> rfl
        subst hg0
        constructor
        · simp [handle_edit_receipt_command, happ, hex, hauth, hx, hdate, hg,
            hnull]
        · refine ⟨resolveDict now (dictSet (dictSet (dictSet
            (dictPop (dictSet (dictSet X "telegramUserId"
              (pyGetN orig "telegramUserId")) "uploadTimestamp"
              (pyGetN orig "uploadTimestamp")) "groupId")
            "lastUpdatedAt" JValue.jts) "isVerifiedByUser" (JValue.jbool true))
            "editedBy" (JValue.jstr u)), ?_, ?_⟩
          · simp [handle_edit_receipt_command, happ, hex, hauth, hx, hdate, hg,
              hnull]
          · have h := main
              (dictPop (dictSet (dictSet X "telegramUserId"
                (pyGetN orig "telegramUserId")) "uploadTimestamp"
                (pyGetN orig "uploadTimestamp")) "groupId")
              (fun k hk => by
                simp only [List.mem_cons, List.mem_singleton, not_or] at hk
                exact dictGet_dictPop_ne _ _ _ hk.2.2.1)
              (dictGet_dictPop_ne _ _ _ (by decide))
              (dictGet_dictPop_ne _ _ _ (by decide))
              _ rfl
            refine ⟨h.1, h.2.1, h.2.2.1, ?_, ?_, h.2.2.2.1, h.2.2.2.2.1, h.2.2.2.2.2⟩
            · intro g hcon hne
              injection hcon with hgg
              exact absurd hgg.symm hne
            · intro _
              rw [dictGet_resolveDict,
                dictGet_dictSet_ne _ _ _ _ (by decide),
                dictGet_dictSet_ne _ _ _ _ (by decide),
                dictGet_dictSet_ne _ _ _ _ (by decide),
                dictGet_dictPop_self]
              rfl
      · have hgts : g0 ≠ JValue.jts := fun hc => hres "groupId" (hc ▸ hg)
        constructor
        · simp [handle_edit_receipt_command, happ, hex, hauth, hx, hdate, hg,
            hnull]
        · refine ⟨resolveDict now (dictSet (dictSet (dictSet
            (dictSet (dictSet (dictSet X "telegramUserId"
              (pyGetN orig "telegramUserId")) "uploadTimestamp"
              (pyGetN orig "uploadTimestamp")) "groupId" g0)
            "lastUpdatedAt" JValue.jts) "isVerifiedByUser" (JValue.jbool true))
            "editedBy" (JValue.jstr u)), ?_, ?_⟩
          · simp [handle_edit_receipt_command, happ, hex, hauth, hx, hdate, hg,
              hnull]
          · have h := main
              (dictSet (dictSet (dictSet X "telegramUserId"
                (pyGetN orig "telegramUserId")) "uploadTimestamp"
                (pyGetN orig "uploadTimestamp")) "groupId" g0)
              (fun k hk => by
                simp only [List.mem_cons, List.mem_singleton, not_or] at hk
                exact dictGet_dictSet_ne _ _ _ _ hk.2.2.1)
              (dictGet_dictSet_ne _ _ _ _ (by decide))
              (dictGet_dictSet_ne _ _ _ _ (by decide))
              _ rfl
            refine ⟨h.1, h.2.1, h.2.2.1, ?_, ?_, h.2.2.2.1, h.2.2.2.2.1, h.2.2.2.2.2⟩
            · intro g hcon _
              injection hcon with hgg
              subst hgg
              rw [dictGet_resolveDict,
                dictGet_dictSet_ne _ _ _ _ (by decide),
                dictGet_dictSet_ne _ _ _ _ (by decide),
                dictGet_dictSet_ne _ _ _ _ (by decide),
                dictGet_dictSet_self]
              simp [resolveJ_of_ne_jts now _ hgts]
            · intro hcon
              rcases hcon with hcon | hcon
              · exact absurd hcon (by simp)
              · injection hcon with hgg
                subst hgg
                exact absurd (by decide : JValue.beq JValue.jnull JValue.jnull = true) hnull

/-- A dict none of whose values is the timestamp sentinel never reads one
(helper for instantiating C3's resolved-document hypothesis). -/
theorem dictGet_no_jts (d : List (String × JValue))
    (h : ∀ kv ∈ d, kv.2 ≠ JValue.jts) (k : String) :
    dictGet d k ≠ some JValue.jts := by
  induction d with
  | nil =>
      intro hcon
      exact Option.noConfusion hcon
  | cons hd tl ih =>
      obtain ⟨k₀, v₀⟩ := hd
      by_cases hk : k₀ = k
      · subst hk
        simp only [dictGet, beq_self_eq_true, if_true]
        intro hcon
        injection hcon with hv
        exact h (k₀, v₀) (by simp) hv
      · simp only [dictGet, beq_iff_eq, hk, if_false]
        exact ih (fun kv hkv => h kv (List.mem_cons_of_mem _ hkv))

/-- C3 witness: the round-trip theorem at the uploader editing their own
receipt with concrete replacement data. -/
theorem C3_edit_roundtrip_witness :
    (handle_edit_receipt_command exCtx c8StateWith "u1" "r1"
        (Except.ok (JValue.jobj c3X)) "2024-06-15" 200).1 =
      "✅ Receipt `r1` updated successfully!" :=
  (C3_edit_roundtrip exCtx c8StateWith "u1" "r1" receiptByU1 c3X "2024-06-15" 200
    rfl (by decide) (by decide) rfl ⟨[], rfl⟩
    (dictGet_no_jts receiptByU1
      (by intro kv hkv; fin_cases hkv <;> simp))).1

/-- Characterisation of the total-mode aggregation loop: it counts exactly
the receipts whose total_price passes the isinstance number check, sums
their totals, and takes the currency from the first counted receipt
carrying one. -/
theorem aggStep_total_spec (docs : List Dict) (acc : AggAcc) :
    (docs.foldl (aggStep "total_by_date") acc).count =
      acc.count + (docs.filter (fun d => pyIsNumber (pyGetN d "total_price"))).length ∧
    (docs.foldl (aggStep "total_by_date") acc).total =
      acc.total + ((docs.filter (fun d => pyIsNumber (pyGetN d "total_price"))).map
        (fun d => pyToQ (pyGetN d "total_price"))).sum ∧
    (docs.foldl (aggStep "total_by_date") acc).ccy =
      firstCcyFrom acc.ccy
        (docs.filter (fun d => pyIsNumber (pyGetN d "total_price"))) := by
  induction docs generalizing acc with
  | nil => simp [firstCcyFrom]
  | cons d rest ih =>
      by_cases hnum : pyIsNumber (pyGetN d "total_price")
      · have hstep : aggStep "total_by_date" acc d =
            { acc with
              total := acc.total + pyToQ (pyGetN d "total_price")
              count := acc.count + 1
              ccy := if acc.ccy.truthy then acc.ccy
                     else pyGetD d "currency_code" (JValue.jstr "") } := by
          by_cases hccy : acc.ccy.truthy <;>
            simp [aggStep, hnum, hccy]
        obtain ⟨ihc, iht, ihy⟩ := ih (aggStep "total_by_date" acc d)
        refine ⟨?_, ?_, ?_⟩
        · rw [List.foldl_cons, ihc, hstep]
          simp [List.filter_cons, hnum]
          omega
        · rw [List.foldl_cons, iht, hstep]
          simp [List.filter_cons, hnum]
          ring
        · rw [List.foldl_cons, ihy, hstep]
          simp only [List.filter_cons, hnum, decide_True, if_true]
          rfl
      · have hstep : aggStep "total_by_date" acc d = acc := by
          simp [aggStep, hnum]
        obtain ⟨ihc, iht, ihy⟩ := ih acc
        refine ⟨?_, ?_, ?_⟩
        · rw [List.foldl_cons, hstep, ihc]
          simp [List.filter_cons, hnum]
        · rw [List.foldl_cons, hstep, iht]
          simp [List.filter_cons, hnum]
        · rw [List.foldl_cons, hstep, ihy]
          simp [List.filter_cons, hnum]

/-- C5: total-mode aggregation over a closed date range scans exactly the
receipts in scope whose date lies in [s, e]; receipts whose total_price is
not a number are skipped without failing the aggregation; the report
carries the count and sum of the remaining receipts (with the currency of
the first counted receipt that has one); and an empty counted set yields
the distinct no-receipts report instead of zero figures. -/
theorem C5_total_aggregation (st : FS) (u s e qf qv label : String)
    (docs numeric : List Dict)
    (hs : s ≠ "") (he : e ≠ "")
    (hqt : get_query_target st u = (qf, qv, label))
    (hdocs : docs = queryReceipts st qf qv s e)
    (hnum : numeric = docs.filter (fun d => pyIsNumber (pyGetN d "total_price"))) :
    _aggregate_spending st u s e "total_by_date" =
      if numeric.isEmpty then
        "No receipts found " ++ label ++ " " ++
          ("between " ++ s ++ " and " ++ e) ++ "."
      else
        "Total spent " ++ label ++ " (" ++ toString numeric.length ++
          " receipts): " ++
          fmt2 ((numeric.map (fun d => pyToQ (pyGetN d "total_price"))).sum) ++
          " " ++
          (if (firstCcyFrom (JValue.jstr "") numeric).truthy then
            pyStrOf (firstCcyFrom (JValue.jstr "") numeric)
          else "") := by
  obtain ⟨hc, ht, hy⟩ := aggStep_total_spec docs ({} : AggAcc)
  rw [← hnum] at hc ht hy
  have hccy0 : ({} : AggAcc).ccy = JValue.jstr "" := rfl
  rw [hccy0] at hy
  have hcount : (docs.foldl (aggStep "total_by_date") ({} : AggAcc)).count =
      numeric.length := by
    rw [hc]; simp
  have htot : (docs.foldl (aggStep "total_by_date") ({} : AggAcc)).total =
      (numeric.map (fun d => pyToQ (pyGetN d "total_price"))).sum := by
    rw [ht]; simp
  simp only [_aggregate_spending, hqt, ← hdocs]
  by_cases hempty : numeric.isEmpty
  · have hlen : numeric.length = 0 := by
      cases numeric with
      | nil => rfl
      | cons a b => simp [List.isEmpty] at hempty
    have hcz : ((docs.foldl (aggStep "total_by_date") ({} : AggAcc)).count == 0) = true := by
      simp [hcount, hlen]
    simp [hcz, hs, he, if_pos hempty]
  · have hlen : numeric.length ≠ 0 := by
      cases numeric with
      | nil => simp at hempty
      | cons a b => simp
    have hcz : ((docs.foldl (aggStep "total_by_date") ({} : AggAcc)).count == 0) = false := by
      simp [hcount, hlen]
    simp only [hcz, Bool.false_eq_true, if_false, if_neg hempty]
    rw [hcount, htot, hy]
    simp

/-- C5 witness: the spec's example yields count 2 and sum 15.50 with the
malformed entry skipped, and an empty scope yields the distinct
no-receipts report. -/
theorem C5_total_aggregation_witness :
    _aggregate_spending c5State "u9" "2024-06-01" "2024-06-03" "total_by_date" =
      "Total spent (personal) (2 receipts): 15.50 " ∧
    _aggregate_spending c5State "u9" "2025-01-01" "2025-01-31" "total_by_date" =
      "No receipts found (personal) between 2025-01-01 and 2025-01-31." := by
  constructor
  · rw [C5_total_aggregation c5State "u9" "2024-06-01" "2024-06-03"
      "telegramUserId" "u9" "(personal)" _ _ (by decide) (by decide) rfl rfl rfl]
    have h1 : (List.filter (fun d => pyIsNumber (pyGetN d "total_price"))
        (queryReceipts c5State "telegramUserId" "u9" "2024-06-01" "2024-06-03")).map
        (fun d => pyToQ (pyGetN d "total_price")) = [10, 11 / 2] := rfl
    have hsum : ([(10 : ℚ), 11 / 2]).sum = 31 / 2 := by
      simp only [List.sum_cons, List.sum_nil]
      norm_num
    have hr : round (((31 : ℚ) / 2) * 100) = 1550 := by
      rw [round_eq]
      norm_num
    have hf : fmt2 (31 / 2) = "15.50" := by
      simp only [fmt2, hr]
      rfl
    rw [h1, hsum, hf]
    rfl
  · rw [C5_total_aggregation c5State "u9" "2025-01-01" "2025-01-31"
      "telegramUserId" "u9" "(personal)" _ _ (by decide) (by decide) rfl rfl rfl]
    rfl

/-- A single membership operation preserves duplicate-freeness of every
group member list (helper). -/
theorem applyGOp_nodup (ctx : Ctx) (st : FS) (op : GOp)
    (h : GroupsNodup st) : GroupsNodup (applyGOp ctx st op) := by
  cases op with
  | join uid gid now =>
      simp only [applyGOp, admin_add_user_to_group]
      cases hp : alGet st.profiles uid with
      | none => exact h
      | some p =>
          cases hg : alGet st.groups gid with
          | none => exact h
          | some g =>
              intro gid' g' hg'
              by_cases heq : gid' = gid
              · subst heq
                rw [alGet_alSet_self] at hg'
                injection hg' with hgg
                subst hgg
                by_cases hm : uid ∈ g.memberUserIds
                · simpa [hm] using h gid' g hg
                · simp only [hm, if_false]
                  exact (h gid' g hg).append (List.nodup_singleton uid)
                    (by simp [List.disjoint_singleton, hm])
              · rw [alGet_alSet_ne _ _ _ _ heq] at hg'
                exact h gid' g' hg'
  | leave uid now =>
      simp only [applyGOp, user_leave_group]
      split
      · exact h
      · split
        · exact h
        · rename_i gid hgid
          split
          · intro gid' g' hg'
            exact h gid' g' hg'
          · rename_i g hg
            split
            · intro gid' g' hg'
              by_cases heq : gid' = gid
              · subst heq
                rw [alGet_alDel_self] at hg'
                simp at hg'
              · rw [alGet_alDel_ne _ _ _ heq, alGet_alSet_ne _ _ _ _ heq] at hg'
                exact h gid' g' hg'
            · intro gid' g' hg'
              by_cases heq : gid' = gid
              · subst heq
                rw [alGet_alSet_self] at hg'
                injection hg' with hgg
                subst hgg
                exact (h gid' g hg).filter _
              · rw [alGet_alSet_ne _ _ _ _ heq] at hg'
                exact h gid' g' hg'
  | remove uid gid now =>
      simp only [applyGOp, admin_remove_user_from_group]
      split
      · exact h
      · split
        · exact h
        · rename_i p hp g hg
          split
          · split
            all_goals
              intro gid' g' hg'
              by_cases heq : gid' = gid
            · subst heq
              rw [alGet_alDel_self] at hg'
              simp at hg'
            · rw [alGet_alDel_ne _ _ _ heq, alGet_alSet_ne _ _ _ _ heq] at hg'
              exact h gid' g' hg'
            · subst heq
              rw [alGet_alDel_self] at hg'
              simp at hg'
            · rw [alGet_alDel_ne _ _ _ heq, alGet_alSet_ne _ _ _ _ heq] at hg'
              exact h gid' g' hg'
          · split
            all_goals
              intro gid' g' hg'
              by_cases heq : gid' = gid
            · subst heq
              rw [alGet_alSet_self] at hg'
              injection hg' with hgg
              subst hgg
              exact (h gid' g hg).filter _
            · rw [alGet_alSet_ne _ _ _ _ heq] at hg'
              exact h gid' g' hg'
            · subst heq
              rw [alGet_alSet_self] at hg'
              injection hg' with hgg
              subst hgg
              exact (h gid' g hg).filter _
            · rw [alGet_alSet_ne _ _ _ _ heq] at hg'
              exact h gid' g' hg'

/-- No single membership operation leaves behind a newly emptied group: a
post-state group document with an empty member list is exactly the
pre-state document, untouched by the operation (helper). -/
theorem applyGOp_empty_stable (ctx : Ctx) (st : FS) (op : GOp) (gid : String)
    (g : Group) (hpost : alGet (applyGOp ctx st op).groups gid = some g)
    (hempty : g.memberUserIds = []) : alGet st.groups gid = some g := by
  cases op with
  | join uid gid₀ now =>
      simp only [applyGOp, admin_add_user_to_group] at hpost
      split at hpost
      · exact hpost
      · split at hpost
        · exact hpost
        · rename_i p hp g₀ hg₀
          simp only at hpost
          by_cases heq : gid = gid₀
          · subst heq
            rw [alGet_alSet_self] at hpost
            injection hpost with hgg
            subst hgg
            by_cases hm : uid ∈ g₀.memberUserIds
            · simp only [hm, if_true]
              simpa [hm] using hg₀
            · simp only [hm, if_false] at hempty
              simp at hempty
          · rw [alGet_alSet_ne _ _ _ _ heq] at hpost
            exact hpost
  | leave uid now =>
      simp only [applyGOp, user_leave_group] at hpost
      split at hpost
      · exact hpost
      · split at hpost
        · exact hpost
        · rename_i gid₀ hgid₀
          split at hpost
          · exact hpost
          · rename_i g₀ hg₀
            split at hpost
            · simp only at hpost
              by_cases heq : gid = gid₀
              · subst heq
                rw [alGet_alDel_self] at hpost
                simp at hpost
              · rw [alGet_alDel_ne _ _ _ heq, alGet_alSet_ne _ _ _ _ heq] at hpost
                exact hpost
            · rename_i hne
              simp only at hpost
              by_cases heq : gid = gid₀
              · subst heq
                rw [alGet_alSet_self] at hpost
                injection hpost with hgg
                subst hgg
                simp only at hempty
                rw [hempty] at hne
                simp at hne
              · rw [alGet_alSet_ne _ _ _ _ heq] at hpost
                exact hpost
  | remove uid gid₀ now =>
      simp only [applyGOp, admin_remove_user_from_group] at hpost
      split at hpost
      · exact hpost
      · split at hpost
        · exact hpost
        · rename_i p hp g₀ hg₀
          split at hpost
          · split at hpost
            all_goals
              dsimp only at hpost
              by_cases heq : gid = gid₀
            · subst heq
              rw [alGet_alDel_self] at hpost
              simp at hpost
            · rw [alGet_alDel_ne _ _ _ heq, alGet_alSet_ne _ _ _ _ heq] at hpost
              exact hpost
            · subst heq
              rw [alGet_alDel_self] at hpost
              simp at hpost
            · rw [alGet_alDel_ne _ _ _ heq, alGet_alSet_ne _ _ _ _ heq] at hpost
              exact hpost
          · rename_i hne
            split at hpost
            all_goals
              dsimp only at hpost
              by_cases heq : gid = gid₀
            · subst heq
              rw [alGet_alSet_self] at hpost
              injection hpost with hgg
              subst hgg
              dsimp only at hempty
              rw [hempty] at hne
              simp at hne
            · rw [alGet_alSet_ne _ _ _ _ heq] at hpost
              exact hpost
            · subst heq
              rw [alGet_alSet_self] at hpost
              injection hpost with hgg
              subst hgg
              dsimp only at hempty
              rw [hempty] at hne
              simp at hne
            · rw [alGet_alSet_ne _ _ _ _ heq] at hpost
              exact hpost

/-- C6: starting from a store whose groups all have duplicate-free member
lists, any sequence of join/leave/remove operations preserves that
invariant; and no single leave/remove (or join) operation leaves behind a
group it emptied — a post-state group with an empty member list is exactly
its untouched pre-state document, so a group emptied by an operation is
deleted within that same operation. -/
theorem C6_membership_invariants (ctx : Ctx) (st : FS) (ops : List GOp)
    (hnd : GroupsNodup st) :
    GroupsNodup (applyGOps ctx st ops) ∧
    ∀ (st₀ : FS) (op : GOp) (gid : String) (g : Group),
      alGet (applyGOp ctx st₀ op).groups gid = some g →
      g.memberUserIds = [] → alGet st₀.groups gid = some g := by
  constructor
  · induction ops generalizing st with
    | nil => exact hnd
    | cons op rest ih => exact ih (applyGOp ctx st op) (applyGOp_nodup ctx st op hnd)
  · intro st₀ op gid g h1 h2
    exact applyGOp_empty_stable ctx st₀ op gid g h1 h2

/-- C6 witness: the invariant theorem at a concrete two-member group under
a join of a third user, a leave and a removal. -/
theorem C6_membership_invariants_witness :
    GroupsNodup (applyGOps exCtx c6State
      [GOp.join "m3" "g1" 7, GOp.leave "m1" 8, GOp.remove "m2" "g1" 9]) ∧
    ∀ (st₀ : FS) (op : GOp) (gid : String) (g : Group),
      alGet (applyGOp exCtx st₀ op).groups gid = some g →
      g.memberUserIds = [] → alGet st₀.groups gid = some g := by
  refine C6_membership_invariants exCtx c6State
    [GOp.join "m3" "g1" 7, GOp.leave "m1" 8, GOp.remove "m2" "g1" 9] ?_
  intro gid g hg
  simp only [c6State, alGet] at hg
  split at hg
  · injection hg with hgg
    subst hgg
    decide
  · simp at hg

end Spendy
